import Mathlib

/-!
# ndptool and the libndp logging macros

A shallow embedding of `src/utils/ndptool.c` (the command line monitor of libndp),
of the logging macros of `src/libndp/ndp_private.h` and of the declarations of
`src/include/ndp.h` they rely on.

Conventions of the embedding:

* C integers are `Int` (or `Nat` for unsigned values and enum constants); no
  computation in this program can overflow except `g_verbosity++`, which is left
  unbounded.
* A C string is a `String`: the characters that precede the terminating NUL.
  `IsCString` says that no character of the string is NUL itself.
* Calls into the operating system and into the library (whose implementation is
  not part of these sources) are recorded as `Event`s; what they return is read
  from a `World`.
-/

namespace Ndptool

/-! ## Constants of the system headers -/

/-- The errno value `EINVAL` of `errno.h`. -/
def EINVAL : Int := 22
/-- The value `EXIT_SUCCESS` of `stdlib.h`. -/
def EXIT_SUCCESS : Int := 0
/-- The value `EXIT_FAILURE` of `stdlib.h`. -/
def EXIT_FAILURE : Int := 1
/-- Signal number of `SIGINT` (`signal.h`, Linux). -/
def SIGINT : Nat := 2
/-- Signal number of `SIGQUIT` (`signal.h`, Linux). -/
def SIGQUIT : Nat := 3
/-- Signal number of `SIGTERM` (`signal.h`, Linux). -/
def SIGTERM : Nat := 15
/-- The `how` argument `SIG_BLOCK` of `sigprocmask`. -/
def SIG_BLOCK : Nat := 0
/-- The size in bytes of `struct signalfd_siginfo`. -/
def sizeof_signalfd_siginfo : Nat := 128
/-- Priority `LOG_ERR` of `syslog.h`. -/
def LOG_ERR : Int := 3
/-- Priority `LOG_WARNING` of `syslog.h`. -/
def LOG_WARNING : Int := 4
/-- Priority `LOG_INFO` of `syslog.h`. -/
def LOG_INFO : Int := 6
/-- Priority `LOG_DEBUG` of `syslog.h`. -/
def LOG_DEBUG : Int := 7

/-! ## `enum ndp_msg_type` (ndp.h) -/

/-- Router Solicitation. -/
def NDP_MSG_RS : Nat := 0
/-- Router Advertisement. -/
def NDP_MSG_RA : Nat := 1
/-- Neighbor Solicitation. -/
def NDP_MSG_NS : Nat := 2
/-- Neighbor Advertisement. -/
def NDP_MSG_NA : Nat := 3
/-- Redirect. -/
def NDP_MSG_R : Nat := 4
/-- Matches all. -/
def NDP_MSG_ALL : Nat := 5

/-! ## `enum verbosity_level` (ndptool.c) -/

/-- First verbosity level. -/
def VERB1 : Int := 0
/-- Second verbosity level. -/
def VERB2 : Int := 1
/-- Third verbosity level. -/
def VERB3 : Int := 2
/-- Fourth verbosity level. -/
def VERB4 : Int := 3
/-- The macro `DEFAULT_VERB`, also the initial value of `g_verbosity`. -/
def DEFAULT_VERB : Int := VERB1

/-! ## C strings -/

/-- No character of the string is the NUL character. -/
def IsCString (s : String) : Prop := ∀ c ∈ s.data, c.toNat ≠ 0

instance (s : String) : Decidable (IsCString s) := by
  unfold IsCString
  exact inferInstance

/-- `strlen` of `string.h`. -/
def strlen (s : List Char) : Nat := s.length

/-- `strcmp` of `string.h`: the difference of the first pair of bytes that differ,
the end of a string counting as the byte 0. -/
def strcmp : List Char → List Char → Int
  | [], [] => 0
  | [], b :: _ => 0 - (b.toNat : Int)
  | a :: _, [] => (a.toNat : Int)
  | a :: as, b :: bs =>
    if a = b then strcmp as bs else (a.toNat : Int) - (b.toNat : Int)

/-- `strncmp` of `string.h`: as `strcmp`, over at most `n` bytes. -/
def strncmp : List Char → List Char → Nat → Int
  | _, _, 0 => 0
  | [], [], _ + 1 => 0
  | [], b :: _, _ + 1 => 0 - (b.toNat : Int)
  | a :: _, [], _ + 1 => (a.toNat : Int)
  | a :: as, b :: bs, n + 1 =>
    if a = b then strncmp as bs n else (a.toNat : Int) - (b.toNat : Int)

/-! ## printf conversions -/

/-- The conversion `%u` (and `%lu`) of printf: decimal digits. -/
def fmt_u (n : Nat) : String := Nat.repr n

/-- The conversion `%02x` of printf: lower case hexadecimal digits, padded on the
left with a zero to two characters. -/
def fmt_02x (n : Nat) : String :=
  let d := Nat.toDigits 16 n
  String.mk (if d.length < 2 then '0' :: d else d)

/-! ## Observable events -/

/-- An event source of the library (`struct ndp_eventfd`): an identity and the
descriptor `ndp_get_eventfd_fd` returns for it. -/
structure ndp_eventfd where
  id : Nat
  fd : Int
deriving DecidableEq, Repr

/-- The accessors of ndp.h that `msgrcv_handler_func` may call. -/
inductive Accessor where
  | ndp_msg_type
  | ndp_msg_ifindex
  | ndp_msg_payload_len
  | ndp_msg_addrto
  | ndp_msgra
  | ndp_msgra_curhoplimit
  | ndp_msgra_flag_managed
  | ndp_msgra_flag_other
  | ndp_msgra_flag_home_agent
  | ndp_msgra_router_lifetime
  | ndp_msgra_reachable_time
  | ndp_msgra_retransmit_time
  | ndp_msgra_opt_source_linkaddr_present
  | ndp_msgra_opt_source_linkaddr
  | ndp_msgra_opt_source_linkaddr_len
  | ndp_msgra_opt_target_linkaddr_present
  | ndp_msgra_opt_target_linkaddr
  | ndp_msgra_opt_target_linkaddr_len
  | ndp_msgra_opt_prefix_present
  | ndp_msgra_opt_prefix
  | ndp_msgra_opt_prefix_len
  | ndp_msgra_opt_prefix_valid_time
  | ndp_msgra_opt_prefix_preferred_time
  | ndp_msgra_opt_mtu_present
  | ndp_msgra_opt_mtu
  | ndp_msgrs
  | ndp_msgns
  | ndp_msgna
  | ndp_msgr
deriving DecidableEq, Repr

/-- What the program does to the outside: system calls, library calls and text
written to the standard streams, in program order. -/
inductive Event where
  | sigprocmask (how : Nat) (mask : List Nat)
  | signalfd (fd : Int) (mask : List Nat) (flags : Nat)
  | select (nfds : Int) (readfds : List Int)
  | read (fd : Int) (count : Nat)
  | close (fd : Int)
  | ndp_call_eventfd_handler (eventfd : ndp_eventfd)
  | ndp_msgrcv_handler_register (func : String) (msg_type : Nat) (ifindex : Nat)
      (priv : Option Nat)
  | ndp_msgrcv_handler_unregister (func : String) (msg_type : Nat) (ifindex : Nat)
      (priv : Option Nat)
  | ndp_open
  | ndp_close
  | if_nametoindex (ifname : String)
  | if_indextoname (ifindex : Nat)
  | lib (a : Accessor)
  | stdout (s : String)
  | stderr (s : String)
deriving DecidableEq, Repr

/-! ## ndp_private.h: the context and the logging macros -/

/-- The fields of `struct ndp` that are plain data (`log_fn` and the handler list
are pointers into the library). -/
structure ndp where
  sock : Int
  log_priority : Int
deriving DecidableEq, Repr

/-- Modelled from the spec: the body of `ndp_get_log_priority` is not part of
these sources (ndp.h only declares it); the spec describes it as the context's
"minimum log priority", the field `log_priority` of `struct ndp`. -/
def ndp_get_log_priority (ctx : ndp) : Int := ctx.log_priority

/-- One call of `ndp_log(ndp, priority, file, line, fn, format, ...)`. -/
structure LogCall where
  priority : Int
  file : String
  line : Nat
  fn : String
  format : String
deriving DecidableEq, Repr

/-- The macro `ndp_log_cond(ndp, prio, arg...)`: the calls of `ndp_log` one
expansion at `file`, `line`, inside function `fn` makes. -/
def ndp_log_cond (ctx : ndp) (prio : Int) (file : String) (line : Nat) (fn : String)
    (format : String) : List LogCall :=
  if ndp_get_log_priority ctx ≥ prio then
    [{ priority := prio, file := file, line := line, fn := fn, format := format }]
  else []

/-- The inline function `ndp_log_null`: empty body. -/
def ndp_log_null (_ctx : ndp) (_format : String) : List LogCall := []

/-- The macro `dbg`, under the preprocessor symbols `ENABLE_LOGGING` and
`ENABLE_DEBUG`. -/
def dbg (ENABLE_LOGGING ENABLE_DEBUG : Bool) (ctx : ndp) (file : String) (line : Nat)
    (fn : String) (format : String) : List LogCall :=
  if ENABLE_LOGGING then
    if ENABLE_DEBUG then ndp_log_cond ctx LOG_DEBUG file line fn format
    else ndp_log_null ctx format
  else ndp_log_null ctx format

/-- The macro `info`, under the preprocessor symbol `ENABLE_LOGGING`. -/
def info (ENABLE_LOGGING : Bool) (ctx : ndp) (file : String) (line : Nat)
    (fn : String) (format : String) : List LogCall :=
  if ENABLE_LOGGING then ndp_log_cond ctx LOG_INFO file line fn format
  else ndp_log_null ctx format

/-- The macro `warn`, under the preprocessor symbol `ENABLE_LOGGING`. -/
def warn (ENABLE_LOGGING : Bool) (ctx : ndp) (file : String) (line : Nat)
    (fn : String) (format : String) : List LogCall :=
  if ENABLE_LOGGING then ndp_log_cond ctx LOG_WARNING file line fn format
  else ndp_log_null ctx format

/-- The macro `err`, under the preprocessor symbol `ENABLE_LOGGING`. -/
def err (ENABLE_LOGGING : Bool) (ctx : ndp) (file : String) (line : Nat)
    (fn : String) (format : String) : List LogCall :=
  if ENABLE_LOGGING then ndp_log_cond ctx LOG_ERR file line fn format
  else ndp_log_null ctx format

/-! ## ndptool.c: output macros -/

/-- The macro `pr_err(args...)`: `fprintf(stderr, args)`. `args` are the library
calls made while the arguments are evaluated, `s` the formatted text. -/
def pr_err (args : List Event) (s : String) : List Event :=
  args ++ [Event.stderr s]

/-- The macro `pr_outx(verb_level, args...)`: the arguments are evaluated, and the
text printed, only when `verb_level <= g_verbosity`. -/
def pr_outx (g_verbosity : Int) (verb_level : Int) (args : List Event) (s : String) :
    List Event :=
  if verb_level ≤ g_verbosity then args ++ [Event.stdout s] else []

/-- The macro `pr_out(args...)`. -/
def pr_out (g_verbosity : Int) (args : List Event) (s : String) : List Event :=
  pr_outx g_verbosity DEFAULT_VERB args s

/-- The macro `pr_out2(args...)`. -/
def pr_out2 (g_verbosity : Int) (args : List Event) (s : String) : List Event :=
  pr_outx g_verbosity VERB2 args s

/-- The macro `pr_out3(args...)`. -/
def pr_out3 (g_verbosity : Int) (args : List Event) (s : String) : List Event :=
  pr_outx g_verbosity VERB3 args s

/-- The macro `pr_out4(args...)`. -/
def pr_out4 (g_verbosity : Int) (args : List Event) (s : String) : List Event :=
  pr_outx g_verbosity VERB4 args s

/-! ## ndptool.c: `run_main_loop` -/

/-- `sigemptyset`: the empty signal set. -/
def sigemptyset : List Nat := []

/-- `sigaddset`: add a signal to a set. -/
def sigaddset (mask : List Nat) (signo : Nat) : List Nat := mask ++ [signo]

/-- `FD_ZERO`: the empty descriptor set. -/
def FD_ZERO : List Int := []

/-- `FD_SET`: add a descriptor to a set. -/
def FD_SET (fd : Int) (set : List Int) : List Int := set ++ [fd]

/-- `FD_ISSET`: membership of a descriptor in a set. -/
def FD_ISSET (fd : Int) (set : List Int) : Bool := decide (fd ∈ set)

/-- What the environment does during one iteration of the `for (;;)` loop of
`run_main_loop`: the result of `select` (its return value, errno, and the
descriptor set it leaves in `rfds_tmp`), the result of `read` on the signal
descriptor (its return value and the `ssi_signo` field it fills), and the value
`ndp_call_eventfd_handler` returns for each event source. -/
structure LoopRound where
  select_ret : Int
  select_errno : Int
  rfds_tmp : List Int
  read_len : Int
  ssi_signo : Nat
  call_eventfd_handler : ndp_eventfd → Int

/-- The environment of the program: results of the system and library calls. -/
structure World where
  if_nametoindex : String → Nat
  if_indextoname : Nat → String
  inet_ntop : List Nat → String
  strerror : Int → String
  uninit_msg_type : Nat
  ndp_open_ret : Int
  register_ret : Int
  sigprocmask_ret : Int
  sigprocmask_errno : Int
  signalfd_ret : Int
  signalfd_errno : Int
  eventfds : List ndp_eventfd
  rounds : List LoopRound

/-- The signal mask `run_main_loop` builds (lines 65 to 67). -/
def run_main_loop_mask : List Nat :=
  sigaddset (sigaddset sigemptyset SIGINT) SIGQUIT

/-- The first `ndp_for_each_event_fd` loop of `run_main_loop` (lines 85 to 91):
adds every event descriptor to `rfds` and tracks the maximum. -/
def run_main_loop_fdset : List ndp_eventfd → List Int × Int → List Int × Int
  | [], acc => acc
  | e :: es, (rfds, fdmax) =>
    let fd := e.fd
    run_main_loop_fdset es (FD_SET fd rfds, if fd > fdmax then fd else fdmax)

/-- How a pass over the event sources ends. -/
inductive PassResult where
  | returned (err : Int)
  | completed (err : Int)
deriving DecidableEq, Repr

/-- The second `ndp_for_each_event_fd` loop of `run_main_loop` (lines 124 to 131).
The `if (err)` statement is not governed by the `FD_ISSET` test (the body of
that `if` is the single assignment), so `err` is tested after every source. -/
def run_main_loop_pass (rfds_tmp : List Int) (handler : ndp_eventfd → Int) :
    List ndp_eventfd → Int → List Event × PassResult
  | [], err => ([], PassResult.completed err)
  | e :: es, err =>
    let step : List Event × Int :=
      if FD_ISSET e.fd rfds_tmp then ([Event.ndp_call_eventfd_handler e], handler e)
      else ([], err)
    if step.2 ≠ 0 then
      (step.1 ++ pr_err [] "ndp eventfd handler call failed\n", PassResult.returned step.2)
    else
      let rest := run_main_loop_pass rfds_tmp handler es step.2
      (step.1 ++ rest.1, rest.2)

/-- The label `out:` of `run_main_loop` (lines 133 to 135). -/
def run_main_loop_out (sfd : Int) (err : Int) : List Event × Option Int :=
  ([Event.close sfd], some err)

/-- The `for (;;)` loop of `run_main_loop` (lines 94 to 132) followed by the code
at `out:`. One element of the list is consumed per iteration; `none` is the
result when the list ends while the loop is still running. -/
def run_main_loop_for (sfd : Int) (rfds : List Int) (fdmax : Int)
    (eventfds : List ndp_eventfd) : List LoopRound → Int → List Event × Option Int
  | [], _ => ([], none)
  | r :: rounds, err =>
    let t_select := [Event.select fdmax rfds]
    if r.select_ret = -1 then
      let o := run_main_loop_out sfd (-r.select_errno)
      (t_select ++ pr_err [] "Select failed\n" ++ o.1, o.2)
    else if FD_ISSET sfd r.rfds_tmp then
      let t_read := [Event.read sfd sizeof_signalfd_siginfo]
      if r.read_len ≠ (sizeof_signalfd_siginfo : Int) then
        let o := run_main_loop_out sfd (-EINVAL)
        (t_select ++ t_read ++ pr_err [] "Unexpected data length came from signalfd\n" ++ o.1,
          o.2)
      else if r.ssi_signo = SIGINT ∨ r.ssi_signo = SIGQUIT ∨ r.ssi_signo = SIGTERM then
        let o := run_main_loop_out sfd err
        (t_select ++ t_read ++ o.1, o.2)
      else
        let o := run_main_loop_out sfd (-EINVAL)
        (t_select ++ t_read ++ pr_err [] "Read unexpected signal\n" ++ o.1, o.2)
    else
      match run_main_loop_pass r.rfds_tmp r.call_eventfd_handler eventfds err with
      | (t, PassResult.returned e) => (t_select ++ t, some e)
      | (t, PassResult.completed e) =>
        let rest := run_main_loop_for sfd rfds fdmax eventfds rounds e
        (t_select ++ t ++ rest.1, rest.2)

/-- The function `run_main_loop`: the events it causes and the value it returns
(`none` when the loop is still running at the end of `w.rounds`). -/
def run_main_loop (w : World) : List Event × Option Int :=
  let err : Int := 0
  let mask := run_main_loop_mask
  let t_block := [Event.sigprocmask SIG_BLOCK mask]
  if w.sigprocmask_ret = -1 then
    (t_block ++ pr_err [] "Failed to set blocked signals\n", some (-w.sigprocmask_errno))
  else
    let sfd := w.signalfd_ret
    let t_sfd := [Event.signalfd (-1) mask 0]
    if sfd = -1 then
      (t_block ++ t_sfd ++ pr_err [] "Failed to open signalfd\n", some (-w.signalfd_errno))
    else
      let init := run_main_loop_fdset w.eventfds (FD_SET sfd FD_ZERO, sfd)
      let rfds := init.1
      let fdmax := init.2 + 1
      let loop := run_main_loop_for sfd rfds fdmax w.eventfds w.rounds err
      (t_block ++ t_sfd ++ loop.1, loop.2)

/-! ## ndptool.c: printing a received message -/

/-- The function `print_help`. -/
def print_help (g_verbosity : Int) (argv0 : String) : List Event :=
  pr_out g_verbosity []
    (argv0 ++ " [options] command\n" ++
      "\t-h --help                Show this help\n" ++
      "\t-v --verbose             Increase output verbosity\n" ++
      "\t-t --msg_type=TYPE       Specified message type\n" ++
      "\t-i --ifname=IFNAME       Specified interface name\n" ++
      "\t                         (\"rs\", \"ra\", \"ns\", \"na\")\n" ++
      "Available commands:\n" ++
      "\tmonitor\n")

/-- The function `str_in6_addr`: `inet_ntop` on the address. -/
def str_in6_addr (w : World) (addr : List Nat) : String := w.inet_ntop addr

/-- The function `pr_out_hwaddr`: the bytes in hexadecimal, separated by colons,
then a newline. -/
def pr_out_hwaddr (g_verbosity : Int) (hwaddr : List Nat) (len : Nat) : List Event :=
  ((List.range len).map (fun i =>
      (if i ≠ 0 then pr_out g_verbosity [] ":" else []) ++
        pr_out g_verbosity [] (fmt_02x (hwaddr.getD i 0)))).flatten ++
    pr_out g_verbosity [] "\n"

/-- What the `ndp_msgra_*` accessors of ndp.h return on the Router Advertisement
view of a message (the value of `ndp_msgra(msg)`). -/
structure ndp_msgra where
  curhoplimit : Nat
  flag_managed : Bool
  flag_other : Bool
  flag_home_agent : Bool
  router_lifetime : Nat
  reachable_time : Nat
  retransmit_time : Nat
  opt_source_linkaddr_present : Bool
  opt_source_linkaddr : List Nat
  opt_source_linkaddr_len : Nat
  opt_target_linkaddr_present : Bool
  opt_target_linkaddr : List Nat
  opt_target_linkaddr_len : Nat
  opt_prefix_present : Bool
  opt_prefix_addr : List Nat
  opt_prefix_len : Nat
  opt_prefix_valid_time : Nat
  opt_prefix_preferred_time : Nat
  opt_mtu_present : Bool
  opt_mtu : Nat

/-- What the `ndp_msg_*` accessors of ndp.h return on a message. `msg_type` is
the integer value of the enum (it need not be one of the six constants). -/
structure ndp_msg where
  msg_type : Nat
  ifindex : Nat
  payload_len : Nat
  addrto : List Nat
  ra : ndp_msgra

/-- Lines 182 to 205 of `msgrcv_handler_func`: the fixed fields of a Router
Advertisement. Arguments of one printf call are evaluated from left to right. -/
def msgrcv_handler_func_ra_fixed (g : Int) (msgra : ndp_msgra) : List Event :=
  [Event.lib Accessor.ndp_msgra] ++
  pr_out g [] "  Type: RA\n" ++
  pr_out g [Event.lib Accessor.ndp_msgra_curhoplimit]
    ("  Hop limit: " ++ fmt_u msgra.curhoplimit ++ "\n") ++
  pr_out g [Event.lib Accessor.ndp_msgra_flag_managed]
    ("  Managed address configuration: " ++
      (if msgra.flag_managed then "yes" else "no") ++ "\n") ++
  pr_out g [Event.lib Accessor.ndp_msgra_flag_other]
    ("  Other configuration: " ++ (if msgra.flag_other then "yes" else "no") ++ "\n") ++
  pr_out g [Event.lib Accessor.ndp_msgra_router_lifetime]
    ("  Router lifetime: " ++ fmt_u msgra.router_lifetime ++ "s\n") ++
  pr_out g [] "  Reachable time: " ++
  [Event.lib Accessor.ndp_msgra_reachable_time] ++
  (if msgra.reachable_time ≠ 0 then
    pr_out g [Event.lib Accessor.ndp_msgra_reachable_time]
      (fmt_u msgra.reachable_time ++ "ms\n")
  else pr_out g [] "unspecified\n") ++
  pr_out g [] "  Retransmit time: " ++
  [Event.lib Accessor.ndp_msgra_retransmit_time] ++
  (if msgra.retransmit_time ≠ 0 then
    pr_out g [Event.lib Accessor.ndp_msgra_retransmit_time]
      (fmt_u msgra.retransmit_time ++ "ms\n")
  else pr_out g [] "unspecified\n")

/-- Lines 206 to 210 of `msgrcv_handler_func`: the source link-layer address. -/
def msgrcv_handler_func_ra_source (g : Int) (msgra : ndp_msgra) : List Event :=
  [Event.lib Accessor.ndp_msgra_opt_source_linkaddr_present] ++
  (if msgra.opt_source_linkaddr_present then
    pr_out g [] "  Source linkaddr: " ++
    [Event.lib Accessor.ndp_msgra_opt_source_linkaddr,
      Event.lib Accessor.ndp_msgra_opt_source_linkaddr_len] ++
    pr_out_hwaddr g msgra.opt_source_linkaddr msgra.opt_source_linkaddr_len
  else [])

/-- Lines 211 to 215 of `msgrcv_handler_func`: the target link-layer address. -/
def msgrcv_handler_func_ra_target (g : Int) (msgra : ndp_msgra) : List Event :=
  [Event.lib Accessor.ndp_msgra_opt_target_linkaddr_present] ++
  (if msgra.opt_target_linkaddr_present then
    pr_out g [] "  Target linkaddr: " ++
    [Event.lib Accessor.ndp_msgra_opt_target_linkaddr,
      Event.lib Accessor.ndp_msgra_opt_target_linkaddr_len] ++
    pr_out_hwaddr g msgra.opt_target_linkaddr msgra.opt_target_linkaddr_len
  else [])

/-- Lines 216 to 236 of `msgrcv_handler_func`: the prefix information option.
`(uint32_t) -1` is 4294967295. -/
def msgrcv_handler_func_ra_prefix_option (w : World) (g : Int) (msgra : ndp_msgra) :
    List Event :=
  [Event.lib Accessor.ndp_msgra_opt_prefix_present] ++
  (if msgra.opt_prefix_present then
    let valid_time := msgra.opt_prefix_valid_time
    let preferred_time := msgra.opt_prefix_preferred_time
    [Event.lib Accessor.ndp_msgra_opt_prefix_valid_time,
      Event.lib Accessor.ndp_msgra_opt_prefix_preferred_time] ++
    pr_out g [Event.lib Accessor.ndp_msgra_opt_prefix,
        Event.lib Accessor.ndp_msgra_opt_prefix_len]
      ("  Prefix: " ++ str_in6_addr w msgra.opt_prefix_addr ++ "/" ++
        fmt_u msgra.opt_prefix_len) ++
    pr_out g [] ", valid_time: " ++
    (if valid_time = 4294967295 then pr_out g [] "infinity"
    else pr_out g [] (fmt_u valid_time ++ "s")) ++
    pr_out g [] ", preferred_time: " ++
    (if preferred_time = 4294967295 then pr_out g [] "infinity"
    else pr_out g [] (fmt_u preferred_time ++ "s")) ++
    pr_out g [] "\n"
  else [])

/-- Lines 237 and 238 of `msgrcv_handler_func`: the MTU option. -/
def msgrcv_handler_func_ra_mtu (g : Int) (msgra : ndp_msgra) : List Event :=
  [Event.lib Accessor.ndp_msgra_opt_mtu_present] ++
  (if msgra.opt_mtu_present then
    pr_out g [Event.lib Accessor.ndp_msgra_opt_mtu]
      ("  MTU: " ++ fmt_u msgra.opt_mtu ++ "\n")
  else [])

/-- Lines 173 to 178 of `msgrcv_handler_func`: the line printed for every
message. -/
def msgrcv_handler_func_head (w : World) (g : Int) (msg : ndp_msg) : List Event :=
  [Event.lib Accessor.ndp_msg_type, Event.lib Accessor.ndp_msg_ifindex,
    Event.if_indextoname msg.ifindex] ++
  pr_out g [Event.lib Accessor.ndp_msg_payload_len, Event.lib Accessor.ndp_msg_addrto]
    ("NDP payload len " ++ fmt_u msg.payload_len ++ ", from addr: " ++
      str_in6_addr w msg.addrto ++ ", iface: " ++ w.if_indextoname msg.ifindex ++ "\n")

/-- The function `msgrcv_handler_func`: the events it causes when `g_verbosity`
is `g`, and the value it returns. -/
def msgrcv_handler_func (w : World) (g : Int) (msg : ndp_msg) : List Event × Int :=
  let msg_type := msg.msg_type
  let head := msgrcv_handler_func_head w g msg
  if msg_type = NDP_MSG_RS then
    (head ++ pr_out g [] "  Type: RS\n", 0)
  else if msg_type = NDP_MSG_RA then
    let msgra := msg.ra
    (head ++ msgrcv_handler_func_ra_fixed g msgra ++
      msgrcv_handler_func_ra_source g msgra ++
      msgrcv_handler_func_ra_target g msgra ++
      msgrcv_handler_func_ra_prefix_option w g msgra ++
      msgrcv_handler_func_ra_mtu g msgra, 0)
  else if msg_type = NDP_MSG_NS then
    (head ++ pr_out g [] "  Type: NS\n", 0)
  else if msg_type = NDP_MSG_NA then
    (head ++ pr_out g [] "  Type: NA\n", 0)
  else if msg_type = NDP_MSG_R then
    (head ++ pr_out g [] "  Type: R\n", 0)
  else
    (head, 0)

/-! ### Vocabulary for the accessor discipline of the handler -/

/-- Whether an accessor takes the Router Advertisement view of a message:
`ndp_msgra` itself and every `ndp_msgra_*` function of ndp.h. -/
def Accessor.isRA : Accessor → Bool
  | Accessor.ndp_msg_type => false
  | Accessor.ndp_msg_ifindex => false
  | Accessor.ndp_msg_payload_len => false
  | Accessor.ndp_msg_addrto => false
  | Accessor.ndp_msgrs => false
  | Accessor.ndp_msgns => false
  | Accessor.ndp_msgna => false
  | Accessor.ndp_msgr => false
  | _ => true

/-- For an accessor that reads the value of an option, the accessor of ndp.h
that tells whether that option is present. -/
def Accessor.presence : Accessor → Option Accessor
  | Accessor.ndp_msgra_opt_source_linkaddr =>
    some Accessor.ndp_msgra_opt_source_linkaddr_present
  | Accessor.ndp_msgra_opt_source_linkaddr_len =>
    some Accessor.ndp_msgra_opt_source_linkaddr_present
  | Accessor.ndp_msgra_opt_target_linkaddr =>
    some Accessor.ndp_msgra_opt_target_linkaddr_present
  | Accessor.ndp_msgra_opt_target_linkaddr_len =>
    some Accessor.ndp_msgra_opt_target_linkaddr_present
  | Accessor.ndp_msgra_opt_prefix => some Accessor.ndp_msgra_opt_prefix_present
  | Accessor.ndp_msgra_opt_prefix_len => some Accessor.ndp_msgra_opt_prefix_present
  | Accessor.ndp_msgra_opt_prefix_valid_time => some Accessor.ndp_msgra_opt_prefix_present
  | Accessor.ndp_msgra_opt_prefix_preferred_time =>
    some Accessor.ndp_msgra_opt_prefix_present
  | Accessor.ndp_msgra_opt_mtu => some Accessor.ndp_msgra_opt_mtu_present
  | _ => none

/-- What a presence accessor returns on a Router Advertisement view (`false` for
the accessors that are not presence accessors). -/
def ndp_msgra.present (msgra : ndp_msgra) : Accessor → Bool
  | Accessor.ndp_msgra_opt_source_linkaddr_present => msgra.opt_source_linkaddr_present
  | Accessor.ndp_msgra_opt_target_linkaddr_present => msgra.opt_target_linkaddr_present
  | Accessor.ndp_msgra_opt_prefix_present => msgra.opt_prefix_present
  | Accessor.ndp_msgra_opt_mtu_present => msgra.opt_mtu_present
  | _ => false

/-- Every call of an option value accessor in the trace comes after a call of
the matching presence accessor, and that accessor returns true on `msgra`. -/
def Guarded (msgra : ndp_msgra) (t : List Event) : Prop :=
  ∀ (before after : List Event) (v p : Accessor),
    t = before ++ Event.lib v :: after → v.presence = some p →
      Event.lib p ∈ before ∧ msgra.present p = true

/-! ## ndptool.c: the monitor command -/

/-- The function `run_cmd_monitor`. The handler is passed by address; it is named
by its symbol. `priv` is `NULL`. -/
def run_cmd_monitor (w : World) (msg_type : Nat) (ifindex : Nat) :
    List Event × Option Int :=
  let t_register :=
    [Event.ndp_msgrcv_handler_register "msgrcv_handler_func" msg_type ifindex none]
  if w.register_ret ≠ 0 then
    (t_register ++ pr_err [] "Failed to register msgrcv handler\n", some w.register_ret)
  else
    let loop := run_main_loop w
    match loop.2 with
    | none => (t_register ++ loop.1, none)
    | some e =>
      (t_register ++ loop.1 ++
        [Event.ndp_msgrcv_handler_unregister "msgrcv_handler_func" msg_type ifindex none],
        some e)

/-- The function `get_msg_type`. The first argument is the value `*p_msg_type`
holds at the call; the result is the returned value and the value `*p_msg_type`
holds afterwards. `msgtypestr` is `none` for a NULL pointer. -/
def get_msg_type (p_msg_type : Nat) (msgtypestr : Option String) : Int × Nat :=
  match msgtypestr with
  | none => (0, NDP_MSG_ALL)
  | some s =>
    if strcmp s.data "rs".data = 0 then (0, NDP_MSG_RS)
    else if strcmp s.data "ra".data = 0 then (0, NDP_MSG_RA)
    else if strcmp s.data "ns".data = 0 then (0, NDP_MSG_NS)
    else if strcmp s.data "na".data = 0 then (0, NDP_MSG_NA)
    else if strcmp s.data "r".data = 0 then (0, NDP_MSG_R)
    else (-EINVAL, p_msg_type)

/-! ## `getopt_long` (C library)

`getopt_long` belongs to the C library, not to these sources. It is modelled
after its documented behaviour (getopt(3), default mode: `argv` is permuted so
that the elements that are not options end up last), for an option string
without optional arguments and a table of long options whose `flag` is `NULL`,
which is what `main` passes. Since `main` never changes `optind` or `argv`, the
values successive calls return depend on `argv` alone; the model yields them as
a list (the call that returns -1 is the end of the list) together with the
elements `argv[optind]`, `argv[optind + 1]`, ... left when -1 is returned. -/

/-- One entry of the long option table (`struct option` with `flag = NULL`). -/
structure LongOption where
  name : String
  has_arg : Nat
  val : Char
deriving DecidableEq, Repr

/-- The constant `no_argument` of `getopt.h`. -/
def no_argument : Nat := 0
/-- The constant `required_argument` of `getopt.h`. -/
def required_argument : Nat := 1

/-- The outcome of one call of `getopt_long` that found an option: the value it
returns and the value it leaves in `optarg`. -/
structure GetoptCall where
  opt : Char
  optarg : Option String
deriving DecidableEq, Repr

/-- Looks a short option character up in the option string: `none` when the
character is not an option, otherwise whether the option takes an argument (a
colon follows it). -/
def getopt_lookup : List Char → Char → Option Bool
  | [], _ => none
  | o :: rest, c =>
    if o = c ∧ c ≠ ':' then some (decide (rest.head? = some ':'))
    else getopt_lookup rest c

/-- Scans the characters of one `argv` element after its leading dash. Returns the
calls completed inside the element and, when its last option still needs an
argument, that option (its argument is the next element of `argv`). -/
def getopt_short (optstring : List Char) : List Char → List GetoptCall × Option Char
  | [] => ([], none)
  | c :: cs =>
    match getopt_lookup optstring c with
    | none =>
      let rest := getopt_short optstring cs
      ({ opt := '?', optarg := none } :: rest.1, rest.2)
    | some false =>
      let rest := getopt_short optstring cs
      ({ opt := c, optarg := none } :: rest.1, rest.2)
    | some true =>
      if cs = [] then ([], some c)
      else ([{ opt := c, optarg := some (String.mk cs) }], none)

/-- Finds the long option a name designates: the entry with exactly that name,
otherwise the only entry the name is an abbreviation of. -/
def getopt_find_long (longopts : List LongOption) (name : List Char) : Option LongOption :=
  match longopts.find? (fun o => decide (o.name.data = name)) with
  | some o => some o
  | none =>
    match longopts.filter (fun o => name.isPrefixOf o.name.data) with
    | [o] => some o
    | _ => none

/-- Handles one `argv` element of the form `--name` or `--name=value`; `body` is
the element without the two dashes. -/
def getopt_long_element (longopts : List LongOption) (body : List Char) :
    List GetoptCall × Option Char :=
  let name := body.takeWhile (fun c => c ≠ '=')
  let value := (body.dropWhile (fun c => c ≠ '=')).tail?
  match getopt_find_long longopts name with
  | none => ([{ opt := '?', optarg := none }], none)
  | some o =>
    match value with
    | some v =>
      if o.has_arg = no_argument then ([{ opt := '?', optarg := none }], none)
      else ([{ opt := o.val, optarg := some (String.mk v) }], none)
    | none =>
      if o.has_arg = required_argument then ([], some o.val)
      else ([{ opt := o.val, optarg := none }], none)

/-- The calls of `getopt_long` over the elements of `argv` from `argv[1]` on, and
the operands left at `argv[optind]` when it returns -1. `pending` is an option
found at the end of the previous element that takes the current element as
its argument. -/
def getopt_long_scan (optstring : List Char) (longopts : List LongOption) :
    Option Char → List String → List GetoptCall × List String
  | none, [] => ([], [])
  | some _, [] => ([{ opt := '?', optarg := none }], [])
  | some c, a :: rest =>
    let r := getopt_long_scan optstring longopts none rest
    ({ opt := c, optarg := some a } :: r.1, r.2)
  | none, a :: rest =>
    match a.data with
    | '-' :: '-' :: [] => ([], rest)
    | '-' :: '-' :: body =>
      let e := getopt_long_element longopts body
      let r := getopt_long_scan optstring longopts e.2 rest
      (e.1 ++ r.1, r.2)
    | '-' :: c :: cs =>
      let e := getopt_short optstring (c :: cs)
      let r := getopt_long_scan optstring longopts e.2 rest
      (e.1 ++ r.1, r.2)
    | _ =>
      let r := getopt_long_scan optstring longopts none rest
      (r.1, a :: r.2)

/-- The calls `getopt_long(argc, argv, optstring, longopts, NULL)` makes on a
command line, see above. -/
def getopt_long (argv : List String) (optstring : String) (longopts : List LongOption) :
    List GetoptCall × List String :=
  getopt_long_scan optstring.data longopts none argv.tail

/-! ## ndptool.c: `main` -/

/-- The table `long_options` of `main`. -/
def long_options : List LongOption :=
  [ { name := "help", has_arg := no_argument, val := 'h' },
    { name := "verbose", has_arg := no_argument, val := 'v' },
    { name := "msg_type", has_arg := required_argument, val := 't' },
    { name := "ifname", has_arg := required_argument, val := 'i' } ]

/-- The variables the option loop of `main` sets. -/
structure MainVars where
  g_verbosity : Int
  msgtypestr : Option String
  ifname : Option String
deriving DecidableEq, Repr

/-- How the option loop of `main` ends: `main` returns from inside the loop, or
the loop is left with `getopt_long` having returned -1. -/
inductive OptLoop where
  | returned (trace : List Event) (status : Int) (vars : MainVars)
  | done (vars : MainVars)
deriving DecidableEq, Repr

/-- The `while` loop of `main` over the values `getopt_long` returns (lines 307
to 334). `strdup` is taken to succeed. -/
def main_getopt_loop (argv0 : String) : List GetoptCall → MainVars → OptLoop
  | [], vars => OptLoop.done vars
  | c :: calls, vars =>
    if c.opt = 'h' then
      OptLoop.returned (print_help vars.g_verbosity argv0) EXIT_SUCCESS vars
    else if c.opt = 'v' then
      main_getopt_loop argv0 calls { vars with g_verbosity := vars.g_verbosity + 1 }
    else if c.opt = 't' then
      main_getopt_loop argv0 calls { vars with msgtypestr := c.optarg }
    else if c.opt = 'i' then
      main_getopt_loop argv0 calls { vars with ifname := c.optarg }
    else if c.opt = '?' then
      OptLoop.returned
        (pr_err [] "unknown option.\n" ++ print_help vars.g_verbosity argv0)
        EXIT_FAILURE vars
    else
      OptLoop.returned
        (pr_err [] ("unknown option \"" ++ String.mk [c.opt] ++ "\".\n") ++
          print_help vars.g_verbosity argv0)
        EXIT_FAILURE vars

/-- What a run of `main` amounts to: the events, the exit status (`none` when the
monitor loop is still running at the end of the rounds of the world), and the
final value of `g_verbosity`. -/
structure MainResult where
  trace : List Event
  status : Option Int
  g_verbosity : Int

/-- Lines 336 to 386 of `main`: what follows the option loop. `vars` holds the
variables the loop has set and `operands` the elements of `argv` from
`argv[optind]` on. -/
def main_command (w : World) (argv0 : String) (vars : MainVars) (operands : List String) :
    MainResult :=
  let res := EXIT_FAILURE
  let g := vars.g_verbosity
  match operands with
  | [] =>
    { trace := pr_err [] "No command specified.\n" ++ print_help g argv0,
      status := some res, g_verbosity := g }
  | cmd_name :: _ =>
    let t_if : List Event :=
      match vars.ifname with
      | none => []
      | some ifname => [Event.if_nametoindex ifname]
    let ifindex : Nat :=
      match vars.ifname with
      | none => 0
      | some ifname => w.if_nametoindex ifname
    if vars.ifname.isSome ∧ ifindex = 0 then
      { trace := t_if ++
          pr_err [] ("Interface \"" ++ vars.ifname.getD "" ++ "\" does not exist\n"),
        status := some res, g_verbosity := g }
    else
      let r := get_msg_type w.uninit_msg_type vars.msgtypestr
      let msg_type := r.2
      if r.1 ≠ 0 then
        { trace := t_if ++
            pr_err [] ("Invalid message type \"" ++ vars.msgtypestr.getD "(null)" ++
              "\" selected\n") ++ print_help g argv0,
          status := some res, g_verbosity := g }
      else if w.ndp_open_ret ≠ 0 then
        { trace := t_if ++ [Event.ndp_open] ++
            pr_err [] ("Failed to open ndp: " ++ w.strerror (-w.ndp_open_ret) ++ "\n"),
          status := some res, g_verbosity := g }
      else if strncmp cmd_name.data "monitor".data (strlen cmd_name.data) = 0 then
        let m := run_cmd_monitor w msg_type ifindex
        match m.2 with
        | none =>
          { trace := t_if ++ [Event.ndp_open] ++ m.1, status := none, g_verbosity := g }
        | some e =>
          if e ≠ 0 then
            { trace := t_if ++ [Event.ndp_open] ++ m.1 ++
                pr_err [] ("Command failed \"" ++ w.strerror (-e) ++ "\"\n") ++
                [Event.ndp_close],
              status := some res, g_verbosity := g }
          else
            { trace := t_if ++ [Event.ndp_open] ++ m.1 ++ [Event.ndp_close],
              status := some EXIT_SUCCESS, g_verbosity := g }
      else
        { trace := t_if ++ [Event.ndp_open] ++
            pr_err [] ("Unknown command \"" ++ cmd_name ++ "\"\n") ++ [Event.ndp_close],
          status := some res, g_verbosity := g }

/-- The function `main`, on the command line `argv` (`argv[0]` included; an empty
`argv` stands for `argc = 0`). -/
def main (w : World) (argv : List String) : MainResult :=
  let argv0 := argv.headD ""
  let parsed := getopt_long argv "hp:i:t:" long_options
  match main_getopt_loop argv0 parsed.1
      { g_verbosity := DEFAULT_VERB, msgtypestr := none, ifname := none } with
  | OptLoop.returned t status vars =>
    { trace := t, status := some status, g_verbosity := vars.g_verbosity }
  | OptLoop.done vars => main_command w argv0 vars parsed.2

/-! ## Worlds and messages used as concrete inputs -/

/-- A world in which the setup of `run_main_loop` succeeds (the signal descriptor
is 3), the only event source has descriptor 4, and in the first iteration
`select` reports that source readable and its handler returns 5. -/
def world_handler_fails : World :=
  { if_nametoindex := fun _ => 0, if_indextoname := fun _ => "", inet_ntop := fun _ => "",
    strerror := fun _ => "", uninit_msg_type := 0, ndp_open_ret := 0, register_ret := 0,
    sigprocmask_ret := 0, sigprocmask_errno := 0, signalfd_ret := 3, signalfd_errno := 0,
    eventfds := [{ id := 0, fd := 4 }],
    rounds := [{ select_ret := 1, select_errno := 0, rfds_tmp := [4], read_len := 0,
                 ssi_signo := 0, call_eventfd_handler := fun _ => 5 }] }

/-- A world with one interface, `eth0` of index 2, in which every call succeeds
and the monitor loop is observed before its first iteration. -/
def world_eth0 : World :=
  { if_nametoindex := fun s => if s = "eth0" then 2 else 0,
    if_indextoname := fun _ => "eth0", inet_ntop := fun _ => "2001:db8::",
    strerror := fun _ => "", uninit_msg_type := 0, ndp_open_ret := 0, register_ret := 0,
    sigprocmask_ret := 0, sigprocmask_errno := 0, signalfd_ret := 3, signalfd_errno := 0,
    eventfds := [{ id := 0, fd := 4 }], rounds := [] }

/-- A Router Advertisement view with a prefix option of infinite valid lifetime
and a preferred lifetime of 14400 seconds. -/
def msgra_infinite_valid : ndp_msgra :=
  { curhoplimit := 64, flag_managed := true, flag_other := false, flag_home_agent := false,
    router_lifetime := 1800, reachable_time := 0, retransmit_time := 0,
    opt_source_linkaddr_present := false, opt_source_linkaddr := [],
    opt_source_linkaddr_len := 0, opt_target_linkaddr_present := false,
    opt_target_linkaddr := [], opt_target_linkaddr_len := 0,
    opt_prefix_present := true, opt_prefix_addr := [], opt_prefix_len := 64,
    opt_prefix_valid_time := 4294967295, opt_prefix_preferred_time := 14400,
    opt_mtu_present := false, opt_mtu := 0 }

/-- A Router Advertisement received on interface 2. -/
def msg_ra_infinite_valid : ndp_msg :=
  { msg_type := NDP_MSG_RA, ifindex := 2, payload_len := 48, addrto := [],
    ra := msgra_infinite_valid }

/-- A Neighbor Solicitation received on interface 2. -/
def msg_ns : ndp_msg :=
  { msg_type := NDP_MSG_NS, ifindex := 2, payload_len := 24, addrto := [],
    ra := msgra_infinite_valid }

/-! ## Lemmas on C strings -/

/-- Characters with the same code are equal. -/
theorem char_toNat_inj {a b : Char} (h : a.toNat = b.toNat) : a = b := by
  have := congrArg Char.ofNat h
  simpa [Char.ofNat_toNat] using this

/-- On strings without NUL characters `strcmp` returns 0 exactly on equal strings. -/
theorem strcmp_eq_zero_iff (a b : List Char) (ha : ∀ c ∈ a, c.toNat ≠ 0)
    (hb : ∀ c ∈ b, c.toNat ≠ 0) : strcmp a b = 0 ↔ a = b := by
  induction a generalizing b with
  | nil =>
    cases b with
    | nil => simp [strcmp]
    | cons y bs =>
      have hy : y.toNat ≠ 0 := hb y (by simp)
      simp only [strcmp]
      constructor
      · intro h; omega
      · intro h; cases h
  | cons x as ih =>
    cases b with
    | nil =>
      have hx : x.toNat ≠ 0 := ha x (by simp)
      simp only [strcmp]
      constructor
      · intro h; omega
      · intro h; cases h
    | cons y bs =>
      simp only [strcmp]
      by_cases hxy : x = y
      · subst hxy
        have := ih bs (fun c hc => ha c (by simp [hc])) (fun c hc => hb c (by simp [hc]))
        simp [this]
      · have hne : x.toNat ≠ y.toNat := fun h => hxy (char_toNat_inj h)
        simp only [hxy, if_false]
        constructor
        · intro h; omega
        · intro h; cases h; exact absurd rfl hxy

/-- The same for `String`s: `strcmp` against a literal returns 0 exactly when the
string is that literal. -/
theorem strcmp_string_eq_zero_iff (s lit : String) (hs : IsCString s) (hl : IsCString lit) :
    strcmp s.data lit.data = 0 ↔ s = lit := by
  rw [strcmp_eq_zero_iff s.data lit.data hs hl]
  constructor
  · intro h; exact String.ext h
  · intro h; rw [h]

/-- Comparing `strlen(a)` bytes of `a` and `b` gives 0 exactly when `a` is a
prefix of `b`. -/
theorem strncmp_strlen_eq_zero_iff (a b : List Char) (ha : ∀ c ∈ a, c.toNat ≠ 0) :
    strncmp a b (strlen a) = 0 ↔ a <+: b := by
  induction a generalizing b with
  | nil => simp [strlen, strncmp]
  | cons x as ih =>
    have hx : x.toNat ≠ 0 := ha x (by simp)
    cases b with
    | nil =>
      simp only [strlen, List.length_cons, strncmp]
      constructor
      · intro h; omega
      · intro h; simp at h
    | cons y bs =>
      simp only [strlen, List.length_cons, strncmp]
      by_cases hxy : x = y
      · subst hxy
        have := ih bs (fun c hc => ha c (by simp [hc]))
        simp only [strlen] at this
        simp [this, List.cons_prefix_cons]
      · have hne : x.toNat ≠ y.toNat := fun h => hxy (char_toNat_inj h)
        simp only [hxy, if_false, List.cons_prefix_cons, false_and, iff_false]
        omega

/-! ## `get_msg_type` -/

/-- Claim C1: `get_msg_type` returns 0 exactly when its string argument is NULL or
one of "rs", "ra", "ns", "na", "r", and then stores `NDP_MSG_ALL`, `NDP_MSG_RS`,
`NDP_MSG_RA`, `NDP_MSG_NS`, `NDP_MSG_NA`, `NDP_MSG_R` respectively; for every
other C string it returns `-EINVAL` and leaves `*p_msg_type` as it was. -/
theorem get_msg_type_spec (p_msg_type : Nat) (msgtypestr : Option String)
    (hstr : ∀ s, msgtypestr = some s → IsCString s) :
    ((get_msg_type p_msg_type msgtypestr).1 = 0 ↔
      (msgtypestr = none ∨ msgtypestr = some "rs" ∨ msgtypestr = some "ra" ∨
        msgtypestr = some "ns" ∨ msgtypestr = some "na" ∨ msgtypestr = some "r")) ∧
    (msgtypestr = none → get_msg_type p_msg_type msgtypestr = (0, NDP_MSG_ALL)) ∧
    (msgtypestr = some "rs" → get_msg_type p_msg_type msgtypestr = (0, NDP_MSG_RS)) ∧
    (msgtypestr = some "ra" → get_msg_type p_msg_type msgtypestr = (0, NDP_MSG_RA)) ∧
    (msgtypestr = some "ns" → get_msg_type p_msg_type msgtypestr = (0, NDP_MSG_NS)) ∧
    (msgtypestr = some "na" → get_msg_type p_msg_type msgtypestr = (0, NDP_MSG_NA)) ∧
    (msgtypestr = some "r" → get_msg_type p_msg_type msgtypestr = (0, NDP_MSG_R)) ∧
    ((get_msg_type p_msg_type msgtypestr).1 ≠ 0 →
      get_msg_type p_msg_type msgtypestr = (-EINVAL, p_msg_type)) := by
  cases msgtypestr with
  | none => simp [get_msg_type]
  | some s =>
    have hs : IsCString s := hstr s rfl
    have h1 := strcmp_string_eq_zero_iff s "rs" hs (by decide)
    have h2 := strcmp_string_eq_zero_iff s "ra" hs (by decide)
    have h3 := strcmp_string_eq_zero_iff s "ns" hs (by decide)
    have h4 := strcmp_string_eq_zero_iff s "na" hs (by decide)
    have h5 := strcmp_string_eq_zero_iff s "r" hs (by decide)
    simp only [get_msg_type, h1, h2, h3, h4, h5]
    by_cases e1 : s = "rs"
    · subst e1; simp
    by_cases e2 : s = "ra"
    · subst e2; simp
    by_cases e3 : s = "ns"
    · subst e3; simp
    by_cases e4 : s = "na"
    · subst e4; simp
    by_cases e5 : s = "r"
    · subst e5; simp
    simp [e1, e2, e3, e4, e5, EINVAL]

/-- Witness of C1: "ra" is accepted as `NDP_MSG_RA`, "rsx" is refused. -/
theorem get_msg_type_spec_witness :
    IsCString "ra" ∧ get_msg_type 7 (some "ra") = (0, NDP_MSG_RA) ∧
      IsCString "rsx" ∧ get_msg_type 7 (some "rsx") = (-EINVAL, 7) :=
  ⟨by decide,
    (get_msg_type_spec 7 (some "ra") (fun s h => by cases h; decide)).2.2.2.1 rfl,
    by decide,
    (get_msg_type_spec 7 (some "rsx") (fun s h => by cases h; decide)).2.2.2.2.2.2.2
      (by decide)⟩

/-! ## The logging macros -/

/-- Claim C4: with logging enabled the log priority of the context is a floor.
`ndp_log_cond` calls `ndp_log` exactly when `ndp_get_log_priority(ndp) >= prio`,
once and with that same `prio`; `err`, `warn` and `info` are `ndp_log_cond` at
`LOG_ERR`, `LOG_WARNING` and `LOG_INFO`; and a message emitted under one priority
setting is emitted, identically, under every higher setting. -/
theorem ndp_log_cond_priority_floor (ctx : ndp) (prio : Int) (file : String) (line : Nat)
    (fn : String) (format : String) :
    (ndp_get_log_priority ctx ≥ prio →
      ndp_log_cond ctx prio file line fn format =
        [{ priority := prio, file := file, line := line, fn := fn, format := format }]) ∧
    (¬ ndp_get_log_priority ctx ≥ prio →
      ndp_log_cond ctx prio file line fn format = []) ∧
    err true ctx file line fn format = ndp_log_cond ctx LOG_ERR file line fn format ∧
    warn true ctx file line fn format = ndp_log_cond ctx LOG_WARNING file line fn format ∧
    info true ctx file line fn format = ndp_log_cond ctx LOG_INFO file line fn format ∧
    (∀ ctx' : ndp, ndp_get_log_priority ctx ≤ ndp_get_log_priority ctx' →
      ndp_log_cond ctx prio file line fn format ≠ [] →
      ndp_log_cond ctx' prio file line fn format =
        ndp_log_cond ctx prio file line fn format) := by
  refine ⟨?_, ?_, ?_, ?_, ?_, ?_⟩
  · intro h; simp [ndp_log_cond, h]
  · intro h; simp [ndp_log_cond, h]
  · simp [err]
  · simp [warn]
  · simp [info]
  · intro ctx' hle hne
    by_cases h : ndp_get_log_priority ctx ≥ prio
    · have h' : ndp_get_log_priority ctx' ≥ prio := le_trans h hle
      simp [ndp_log_cond, h, h']
    · exact absurd (by simp [ndp_log_cond, h]) hne

/-- Witness of C4: at priority setting 4 an error is logged and an info message is
not; the error is logged at setting 7 as well. -/
theorem ndp_log_cond_priority_floor_witness :
    ndp_log_cond { sock := 3, log_priority := 4 } LOG_ERR "ndp.c" 10 "f" "m" =
        [{ priority := LOG_ERR, file := "ndp.c", line := 10, fn := "f", format := "m" }] ∧
      ndp_log_cond { sock := 3, log_priority := 4 } LOG_INFO "ndp.c" 10 "f" "m" = [] ∧
      ndp_log_cond { sock := 3, log_priority := 7 } LOG_ERR "ndp.c" 10 "f" "m" =
        ndp_log_cond { sock := 3, log_priority := 4 } LOG_ERR "ndp.c" 10 "f" "m" :=
  ⟨(ndp_log_cond_priority_floor { sock := 3, log_priority := 4 } LOG_ERR "ndp.c" 10 "f" "m").1
      (by decide),
    (ndp_log_cond_priority_floor { sock := 3, log_priority := 4 } LOG_INFO "ndp.c" 10 "f"
      "m").2.1 (by decide),
    (ndp_log_cond_priority_floor { sock := 3, log_priority := 4 } LOG_ERR "ndp.c" 10 "f"
      "m").2.2.2.2.2 { sock := 3, log_priority := 7 } (by decide) (by decide)⟩

/-! ## `run_main_loop` -/

/-- Claim C2, evaluated on the code: the mask `run_main_loop` blocks and hands to
`signalfd` is `SIGINT`, `SIGQUIT`; `SIGTERM` is not in it. In every world the
first call is `sigprocmask(SIG_BLOCK, mask)` with that mask and, when it
succeeds, the second is `signalfd(-1, mask, 0)` with the same mask. -/
theorem run_main_loop_mask_omits_SIGTERM :
    run_main_loop_mask = [SIGINT, SIGQUIT] ∧ SIGTERM ∉ run_main_loop_mask ∧
      (∀ w : World,
        (run_main_loop w).1.head? = some (Event.sigprocmask SIG_BLOCK [SIGINT, SIGQUIT])) ∧
      (∀ w : World,
        (run_main_loop w).1.take 2 =
            [Event.sigprocmask SIG_BLOCK [SIGINT, SIGQUIT],
              Event.stderr "Failed to set blocked signals\n"] ∨
          (run_main_loop w).1.take 2 =
            [Event.sigprocmask SIG_BLOCK [SIGINT, SIGQUIT],
              Event.signalfd (-1) [SIGINT, SIGQUIT] 0]) := by
  refine ⟨rfl, by decide, ?_, ?_⟩
  · intro w
    unfold run_main_loop
    by_cases h1 : w.sigprocmask_ret = -1
    · simp [h1, run_main_loop_mask, sigaddset, sigemptyset]
    · by_cases h2 : w.signalfd_ret = -1
      · simp [h1, h2, run_main_loop_mask, sigaddset, sigemptyset]
      · simp [h1, h2, run_main_loop_mask, sigaddset, sigemptyset]
  · intro w
    unfold run_main_loop
    by_cases h1 : w.sigprocmask_ret = -1
    · left
      simp [h1, pr_err, run_main_loop_mask, sigaddset, sigemptyset]
    · right
      by_cases h2 : w.signalfd_ret = -1
      · simp [h1, h2, pr_err, run_main_loop_mask, sigaddset, sigemptyset]
      · simp [h1, h2, run_main_loop_mask, sigaddset, sigemptyset]

/-- The half of C2 the code does satisfy: an iteration entered with `err = 0` in
which `SIGINT`, `SIGQUIT` or `SIGTERM` is read from the signal descriptor closes
the descriptor and returns 0. -/
theorem run_main_loop_for_terminating_signal (sfd : Int) (rfds : List Int) (fdmax : Int)
    (eventfds : List ndp_eventfd) (r : LoopRound) (rounds : List LoopRound)
    (hsel : r.select_ret ≠ -1) (hsig : FD_ISSET sfd r.rfds_tmp = true)
    (hlen : r.read_len = (sizeof_signalfd_siginfo : Int))
    (hsigno : r.ssi_signo = SIGINT ∨ r.ssi_signo = SIGQUIT ∨ r.ssi_signo = SIGTERM) :
    run_main_loop_for sfd rfds fdmax eventfds (r :: rounds) 0 =
      ([Event.select fdmax rfds, Event.read sfd sizeof_signalfd_siginfo, Event.close sfd],
        some 0) := by
  simp [run_main_loop_for, hsel, hsig, hlen, hsigno, run_main_loop_out]

/-- Claim C10, evaluated on the code: after `signalfd` has succeeded with
descriptor 3, a handler that returns 5 makes `run_main_loop` return 5 through
the `return err` of line 129; the trace of the run holds no `close(3)`. -/
theorem run_main_loop_handler_failure_leaks_sfd :
    run_main_loop world_handler_fails =
      ([Event.sigprocmask SIG_BLOCK [SIGINT, SIGQUIT],
        Event.signalfd (-1) [SIGINT, SIGQUIT] 0,
        Event.select 5 [3, 4],
        Event.ndp_call_eventfd_handler { id := 0, fd := 4 },
        Event.stderr "ndp eventfd handler call failed\n"], some 5) ∧
    (run_main_loop world_handler_fails).1.count (Event.close 3) = 0 := by
  constructor
  · decide
  · decide

/-- A pass over the event sources closes no descriptor. -/
theorem run_main_loop_pass_no_close (rfds_tmp : List Int) (handler : ndp_eventfd → Int)
    (eventfds : List ndp_eventfd) (err : Int) (fd : Int) :
    (run_main_loop_pass rfds_tmp handler eventfds err).1.count (Event.close fd) = 0 := by
  induction eventfds generalizing err with
  | nil => simp [run_main_loop_pass]
  | cons x xs ih =>
    unfold run_main_loop_pass
    by_cases hx : FD_ISSET x.fd rfds_tmp = true
    · by_cases hh : handler x = 0
      · simp [hx, hh, ih]
      · simp [hx, hh, pr_err]
    · by_cases he : err = 0
      · simp [hx, he, ih]
      · simp [hx, he, pr_err]

/-- Every return of the loop of `run_main_loop` through the label `out` closes the
signal descriptor exactly once; the only other return, the one that follows a
failing handler, closes nothing. -/
theorem run_main_loop_for_close_count (sfd : Int) (rfds : List Int) (fdmax : Int)
    (eventfds : List ndp_eventfd) (rounds : List LoopRound) (err : Int) (e : Int)
    (h : (run_main_loop_for sfd rfds fdmax eventfds rounds err).2 = some e) :
    (run_main_loop_for sfd rfds fdmax eventfds rounds err).1.count (Event.close sfd) = 1 ∨
      ((run_main_loop_for sfd rfds fdmax eventfds rounds err).1.count (Event.close sfd) = 0 ∧
        Event.stderr "ndp eventfd handler call failed\n" ∈
          (run_main_loop_for sfd rfds fdmax eventfds rounds err).1) := by
  induction rounds generalizing err with
  | nil => simp [run_main_loop_for] at h
  | cons r rs ih =>
    unfold run_main_loop_for at h ⊢
    by_cases h1 : r.select_ret = -1
    · left; simp [h1, pr_err, run_main_loop_out]
    · by_cases h2 : FD_ISSET sfd r.rfds_tmp = true
      · by_cases h3 : r.read_len = (sizeof_signalfd_siginfo : Int)
        · by_cases h4 : r.ssi_signo = SIGINT ∨ r.ssi_signo = SIGQUIT ∨ r.ssi_signo = SIGTERM
          · left; simp [h1, h2, h3, h4, pr_err, run_main_loop_out]
          · left; simp [h1, h2, h3, h4, pr_err, run_main_loop_out]
        · left; simp [h1, h2, h3, pr_err, run_main_loop_out]
      · have hp := run_main_loop_pass_no_close r.rfds_tmp r.call_eventfd_handler
          eventfds err sfd
        have hm : ∀ v, (run_main_loop_pass r.rfds_tmp r.call_eventfd_handler eventfds err).2 =
            PassResult.returned v →
            Event.stderr "ndp eventfd handler call failed\n" ∈
              (run_main_loop_pass r.rfds_tmp r.call_eventfd_handler eventfds err).1 := by
          clear hp h ih
          induction eventfds generalizing err with
          | nil => intro v hv; simp [run_main_loop_pass] at hv
          | cons x xs ihx =>
            intro v hv
            unfold run_main_loop_pass at hv ⊢
            by_cases hx : FD_ISSET x.fd r.rfds_tmp = true
            · by_cases hh : r.call_eventfd_handler x = 0
              · simp only [hx, hh, if_true] at hv ⊢
                simp only [ne_eq, not_true_eq_false, if_false] at hv ⊢
                exact List.mem_append_right _ (ihx 0 v hv)
              · simp [hx, hh, pr_err]
            · by_cases he : err = 0
              · simp only [hx, he] at hv ⊢
                simp only [ne_eq, not_true_eq_false, if_false] at hv ⊢
                exact List.mem_append_right _ (ihx 0 v hv)
              · simp [hx, he, pr_err]
        simp only [h1, h2, if_false] at h ⊢
        cases hres : run_main_loop_pass r.rfds_tmp r.call_eventfd_handler eventfds err with
        | mk t res =>
          rw [hres] at hp hm h
          cases res with
          | returned v =>
            right
            simp only [] at hp ⊢
            have := hm v rfl
            simp only [] at this
            simp [hp, this]
          | completed v =>
            simp only [] at h hp ⊢
            rcases ih v h with h' | ⟨h', h''⟩
            · left; simp [hp, h']
            · right; simp [hp, h', h'']

/-- When the handlers of all readable sources return 0, a pass entered with `err = 0`
calls exactly the readable sources, in order, and completes with `err = 0`. -/
theorem run_main_loop_pass_all_zero (rfds_tmp : List Int) (handler : ndp_eventfd → Int)
    (eventfds : List ndp_eventfd)
    (hz : ∀ e ∈ eventfds.filter (fun e => FD_ISSET e.fd rfds_tmp), handler e = 0) :
    run_main_loop_pass rfds_tmp handler eventfds 0 =
      ((eventfds.filter (fun e => FD_ISSET e.fd rfds_tmp)).map Event.ndp_call_eventfd_handler,
        PassResult.completed 0) := by
  induction eventfds with
  | nil => simp [run_main_loop_pass]
  | cons x xs ih =>
    by_cases hx : FD_ISSET x.fd rfds_tmp = true
    · have h0 : handler x = 0 := hz x (by simp [List.filter, hx])
      have ih' := ih (fun e he => hz e (by
        simp only [List.filter, hx]; exact List.mem_cons_of_mem _ he))
      simp [run_main_loop_pass, hx, h0, ih']
    · have ih' := ih (fun e he => hz e (by
        simp only [List.filter, hx]; exact he))
      simp [run_main_loop_pass, hx, ih']

/-- When `e` is the first readable source whose handler returns non-zero, a pass
entered with `err = 0` calls the readable sources up to `e`, prints the failure
message and makes `run_main_loop` return that value. -/
theorem run_main_loop_pass_first_nonzero (rfds_tmp : List Int) (handler : ndp_eventfd → Int)
    (eventfds : List ndp_eventfd) (pre : List ndp_eventfd) (e : ndp_eventfd)
    (post : List ndp_eventfd)
    (hsplit : eventfds.filter (fun e => FD_ISSET e.fd rfds_tmp) = pre ++ e :: post)
    (hz : ∀ x ∈ pre, handler x = 0) (hne : handler e ≠ 0) :
    run_main_loop_pass rfds_tmp handler eventfds 0 =
      ((pre ++ [e]).map Event.ndp_call_eventfd_handler ++
        [Event.stderr "ndp eventfd handler call failed\n"],
        PassResult.returned (handler e)) := by
  induction eventfds generalizing pre with
  | nil => simp at hsplit
  | cons x xs ih =>
    by_cases hx : FD_ISSET x.fd rfds_tmp = true
    · simp only [List.filter, hx] at hsplit
      cases pre with
      | nil =>
        simp only [List.nil_append, List.cons.injEq] at hsplit
        obtain ⟨rfl, -⟩ := hsplit
        simp [run_main_loop_pass, hx, hne, pr_err]
      | cons y ys =>
        simp only [List.cons_append, List.cons.injEq] at hsplit
        obtain ⟨rfl, hrest⟩ := hsplit
        have h0 : handler x = 0 := hz x (by simp)
        have ih' := ih ys hrest (fun z hz' => hz z (by simp [hz']))
        simp [run_main_loop_pass, hx, h0, ih']
    · simp only [List.filter, hx] at hsplit
      have ih' := ih pre hsplit hz
      simp [run_main_loop_pass, hx, ih']


/-- Rounds without signal, `select` failure or failing handler only add events: the
loop goes on with the rounds that follow, still with `err = 0`. -/
theorem run_main_loop_for_quiet (sfd : Int) (rfds : List Int) (fdmax : Int)
    (eventfds : List ndp_eventfd) (pre rest : List LoopRound)
    (hpre : ∀ q ∈ pre, q.select_ret ≠ -1 ∧ FD_ISSET sfd q.rfds_tmp = false ∧
      ∀ e ∈ eventfds.filter (fun e => FD_ISSET e.fd q.rfds_tmp),
        q.call_eventfd_handler e = 0) :
    ∃ t, run_main_loop_for sfd rfds fdmax eventfds (pre ++ rest) 0 =
      (t ++ (run_main_loop_for sfd rfds fdmax eventfds rest 0).1,
        (run_main_loop_for sfd rfds fdmax eventfds rest 0).2) := by
  induction pre with
  | nil => exact ⟨[], by simp⟩
  | cons q qs ih =>
    obtain ⟨hsel, hsig, hz⟩ := hpre q (by simp)
    obtain ⟨t, ht⟩ := ih (fun x hx => hpre x (by simp [hx]))
    have hpass := run_main_loop_pass_all_zero q.rfds_tmp q.call_eventfd_handler eventfds hz
    refine ⟨[Event.select fdmax rfds] ++
      (eventfds.filter (fun e => FD_ISSET e.fd q.rfds_tmp)).map
        Event.ndp_call_eventfd_handler ++ t, ?_⟩
    simp [run_main_loop_for, hsel, hsig, hpass, ht]

/-- Claim C7: take an iteration of the loop of `run_main_loop` (the setup has
succeeded and every earlier round `pre` passed without a signal, a `select`
failure or a failing handler) in which `select` succeeds and no signal is read.
The pass calls `ndp_call_eventfd_handler` exactly on the sources whose
descriptor is in the set `select` left, in enumeration order. If the first
source `e` whose handler returns non-zero comes after sources `p` whose
handlers return 0, the calls are those of `p` and `e`, nothing else, and
`run_main_loop` returns that value. If every call returns 0 the loop goes on
with the remaining rounds and `err = 0`. -/
theorem run_main_loop_event_pass (w : World) (pre : List LoopRound) (r : LoopRound)
    (rest : List LoopRound)
    (hblock : w.sigprocmask_ret ≠ -1) (hsfd : w.signalfd_ret ≠ -1)
    (hrounds : w.rounds = pre ++ r :: rest)
    (hpre : ∀ q ∈ pre, q.select_ret ≠ -1 ∧ FD_ISSET w.signalfd_ret q.rfds_tmp = false ∧
      ∀ e ∈ w.eventfds.filter (fun e => FD_ISSET e.fd q.rfds_tmp),
        q.call_eventfd_handler e = 0)
    (hsel : r.select_ret ≠ -1) (hsig : FD_ISSET w.signalfd_ret r.rfds_tmp = false) :
    ∃ (before : List Event) (rfds : List Int) (fdmax : Int),
      (∀ (p : List ndp_eventfd) (e : ndp_eventfd) (post : List ndp_eventfd),
        w.eventfds.filter (fun e => FD_ISSET e.fd r.rfds_tmp) = p ++ e :: post →
        (∀ x ∈ p, r.call_eventfd_handler x = 0) → r.call_eventfd_handler e ≠ 0 →
        run_main_loop w =
          (before ++ [Event.select fdmax rfds] ++
            (p ++ [e]).map Event.ndp_call_eventfd_handler ++
            [Event.stderr "ndp eventfd handler call failed\n"],
            some (r.call_eventfd_handler e))) ∧
      ((∀ e ∈ w.eventfds.filter (fun e => FD_ISSET e.fd r.rfds_tmp),
          r.call_eventfd_handler e = 0) →
        run_main_loop w =
          (before ++ [Event.select fdmax rfds] ++
            (w.eventfds.filter (fun e => FD_ISSET e.fd r.rfds_tmp)).map
              Event.ndp_call_eventfd_handler ++
            (run_main_loop_for w.signalfd_ret rfds fdmax w.eventfds rest 0).1,
            (run_main_loop_for w.signalfd_ret rfds fdmax w.eventfds rest 0).2)) := by
  obtain ⟨t, ht⟩ := run_main_loop_for_quiet w.signalfd_ret
    (run_main_loop_fdset w.eventfds (FD_SET w.signalfd_ret FD_ZERO, w.signalfd_ret)).1
    ((run_main_loop_fdset w.eventfds (FD_SET w.signalfd_ret FD_ZERO, w.signalfd_ret)).2 + 1)
    w.eventfds pre (r :: rest) hpre
  refine ⟨[Event.sigprocmask SIG_BLOCK run_main_loop_mask,
      Event.signalfd (-1) run_main_loop_mask 0] ++ t,
    (run_main_loop_fdset w.eventfds (FD_SET w.signalfd_ret FD_ZERO, w.signalfd_ret)).1,
    (run_main_loop_fdset w.eventfds (FD_SET w.signalfd_ret FD_ZERO, w.signalfd_ret)).2 + 1,
    ?_, ?_⟩
  · intro p e post hsplit hz hne
    have hpass := run_main_loop_pass_first_nonzero r.rfds_tmp r.call_eventfd_handler
      w.eventfds p e post hsplit hz hne
    simp [run_main_loop, hblock, hsfd, hrounds, ht, run_main_loop_for, hsel, hsig, hpass]
  · intro hz
    have hpass := run_main_loop_pass_all_zero r.rfds_tmp r.call_eventfd_handler
      w.eventfds hz
    simp [run_main_loop, hblock, hsfd, hrounds, ht, run_main_loop_for, hsel, hsig, hpass]

/-- Witness of C7: in `world_handler_fails` the first iteration calls the handler of
the readable source, which returns 5, and `run_main_loop` returns 5. -/
theorem run_main_loop_event_pass_witness :
    (run_main_loop world_handler_fails).2 = some 5 := by
  obtain ⟨before, rfds, fdmax, h1, -⟩ :=
    run_main_loop_event_pass world_handler_fails []
      { select_ret := 1, select_errno := 0, rfds_tmp := [4], read_len := 0,
        ssi_signo := 0, call_eventfd_handler := fun _ => 5 } []
      (by decide) (by decide) rfl (by simp) (by decide) (by decide)
  have h := h1 [] { id := 0, fd := 4 } [] (by decide) (by simp) (by decide)
  rw [h]

/-! ## `main` -/

/-- A pass over the event sources registers no handler. -/
theorem run_main_loop_pass_no_register (rfds_tmp : List Int) (handler : ndp_eventfd → Int)
    (eventfds : List ndp_eventfd) (err : Int) (func : String) (mt idx : Nat)
    (priv : Option Nat) :
    Event.ndp_msgrcv_handler_register func mt idx priv ∉
      (run_main_loop_pass rfds_tmp handler eventfds err).1 := by
  induction eventfds generalizing err with
  | nil => simp [run_main_loop_pass]
  | cons x xs ih =>
    unfold run_main_loop_pass
    by_cases hx : FD_ISSET x.fd rfds_tmp = true
    · by_cases hh : handler x = 0
      · simp [hx, hh, ih]
      · simp [hx, hh, pr_err]
    · by_cases he : err = 0
      · simp [hx, he, ih]
      · simp [hx, he, pr_err]

/-- The loop of `run_main_loop` registers no handler. -/
theorem run_main_loop_for_no_register (sfd : Int) (rfds : List Int) (fdmax : Int)
    (eventfds : List ndp_eventfd) (rounds : List LoopRound) (err : Int) (func : String)
    (mt idx : Nat) (priv : Option Nat) :
    Event.ndp_msgrcv_handler_register func mt idx priv ∉
      (run_main_loop_for sfd rfds fdmax eventfds rounds err).1 := by
  induction rounds generalizing err with
  | nil => simp [run_main_loop_for]
  | cons r rs ih =>
    unfold run_main_loop_for
    by_cases h1 : r.select_ret = -1
    · simp [h1, pr_err, run_main_loop_out]
    · by_cases h2 : FD_ISSET sfd r.rfds_tmp = true
      · by_cases h3 : r.read_len = (sizeof_signalfd_siginfo : Int)
        · by_cases h4 : r.ssi_signo = SIGINT ∨ r.ssi_signo = SIGQUIT ∨ r.ssi_signo = SIGTERM
          · simp [h1, h2, h3, h4, pr_err, run_main_loop_out]
          · simp [h1, h2, h3, h4, pr_err, run_main_loop_out]
        · simp [h1, h2, h3, pr_err, run_main_loop_out]
      · have hp := run_main_loop_pass_no_register r.rfds_tmp r.call_eventfd_handler
          eventfds err func mt idx priv
        simp only [h1, h2, if_false]
        cases hres : run_main_loop_pass r.rfds_tmp r.call_eventfd_handler eventfds err with
        | mk t res =>
          rw [hres] at hp
          cases res with
          | returned e => simpa using hp
          | completed e =>
            have := ih e
            simp at hp
            simp [hp, this]

/-- The function `run_main_loop` registers no handler. -/
theorem run_main_loop_no_register (w : World) (func : String) (mt idx : Nat)
    (priv : Option Nat) :
    Event.ndp_msgrcv_handler_register func mt idx priv ∉ (run_main_loop w).1 := by
  unfold run_main_loop
  by_cases h1 : w.sigprocmask_ret = -1
  · simp [h1, pr_err]
  · by_cases h2 : w.signalfd_ret = -1
    · simp [h1, h2, pr_err]
    · simp [h1, h2]
      exact run_main_loop_for_no_register _ _ _ _ _ _ _ _ _ _

/-- The first event of `run_cmd_monitor` is the registration of
`msgrcv_handler_func` with the given type and ifindex and a NULL private
pointer; no other registration follows. -/
theorem run_cmd_monitor_register (w : World) (msg_type ifindex : Nat) :
    ∃ t, (run_cmd_monitor w msg_type ifindex).1 =
      Event.ndp_msgrcv_handler_register "msgrcv_handler_func" msg_type ifindex none :: t ∧
      ∀ func mt idx priv, Event.ndp_msgrcv_handler_register func mt idx priv ∉ t := by
  unfold run_cmd_monitor
  by_cases h : w.register_ret = 0
  · cases hl : (run_main_loop w).2 with
    | none =>
      refine ⟨(run_main_loop w).1, by simp [h, hl], ?_⟩
      intro f m i p
      exact run_main_loop_no_register w f m i p
    | some e =>
      refine ⟨(run_main_loop w).1 ++
        [Event.ndp_msgrcv_handler_unregister "msgrcv_handler_func" msg_type ifindex none],
        by simp [h, hl], ?_⟩
      intro f m i p
      have := run_main_loop_no_register w f m i p
      simp [this]
  · refine ⟨pr_err [] "Failed to register msgrcv handler\n", by simp [h], ?_⟩
    intro f m i p
    simp [pr_err]

/-- The option loop changes `msgtypestr` only on a `'t'` and `ifname` only on an
`'i'`. -/
theorem main_getopt_loop_keeps (argv0 : String) (calls : List GetoptCall)
    (vars vars' : MainVars) (h : main_getopt_loop argv0 calls vars = OptLoop.done vars') :
    ((∀ c ∈ calls, c.opt ≠ 't') → vars'.msgtypestr = vars.msgtypestr) ∧
    ((∀ c ∈ calls, c.opt ≠ 'i') → vars'.ifname = vars.ifname) := by
  induction calls generalizing vars with
  | nil =>
    simp only [main_getopt_loop, OptLoop.done.injEq] at h
    subst h
    exact ⟨fun _ => rfl, fun _ => rfl⟩
  | cons c cs ih =>
    unfold main_getopt_loop at h
    by_cases hh : c.opt = 'h'
    · simp [hh] at h
    by_cases hv : c.opt = 'v'
    · simp only [hh, hv, if_true, if_false] at h
      have := ih _ h
      exact ⟨fun hc => this.1 (fun x hx => hc x (by simp [hx])),
        fun hc => this.2 (fun x hx => hc x (by simp [hx]))⟩
    by_cases ht : c.opt = 't'
    · simp only [hh, hv, ht, if_true, if_false] at h
      have := ih _ h
      refine ⟨fun hc => absurd ht (hc c (by simp)),
        fun hc => this.2 (fun x hx => hc x (by simp [hx]))⟩
    by_cases hi : c.opt = 'i'
    · simp only [hh, hv, ht, hi, if_true, if_false] at h
      have := ih _ h
      refine ⟨fun hc => this.1 (fun x hx => hc x (by simp [hx])),
        fun hc => absurd hi (hc c (by simp))⟩
    by_cases hq : c.opt = '?'
    · simp [hh, hv, ht, hi, hq] at h
    · simp [hh, hv, ht, hi, hq] at h

/-- The option loop never lowers `g_verbosity`: it stays at or above its initial
value `DEFAULT_VERB = 0`. -/
theorem main_getopt_loop_verbosity (argv0 : String) (calls : List GetoptCall)
    (vars vars' : MainVars) (h : main_getopt_loop argv0 calls vars = OptLoop.done vars')
    (hg : 0 ≤ vars.g_verbosity) : 0 ≤ vars'.g_verbosity := by
  induction calls generalizing vars with
  | nil =>
    simp only [main_getopt_loop, OptLoop.done.injEq] at h
    subst h
    exact hg
  | cons c cs ih =>
    unfold main_getopt_loop at h
    by_cases hh : c.opt = 'h'
    · simp [hh] at h
    by_cases hv : c.opt = 'v'
    · simp only [hh, hv, if_true, if_false] at h
      exact ih _ h (by simp only; omega)
    by_cases ht : c.opt = 't'
    · simp only [hh, hv, ht, if_true, if_false] at h
      exact ih _ h hg
    by_cases hi : c.opt = 'i'
    · simp only [hh, hv, ht, hi, if_true, if_false] at h
      exact ih _ h hg
    by_cases hq : c.opt = '?'
    · simp [hh, hv, ht, hi, hq] at h
    · simp [hh, hv, ht, hi, hq] at h

/-- The part of `main` after the option loop leaves `g_verbosity` alone. -/
theorem main_command_g_verbosity (w : World) (argv0 : String) (vars : MainVars)
    (operands : List String) :
    (main_command w argv0 vars operands).g_verbosity = vars.g_verbosity := by
  unfold main_command
  cases operands with
  | nil => rfl
  | cons c cs =>
    simp only []
    split_ifs
    · rfl
    · rfl
    · rfl
    · split
      · rfl
      · split_ifs <;> rfl
    · rfl

/-- The option loop over a concatenation: when it runs to the end, it has run to
the end of the first part and then of the second. -/
theorem main_getopt_loop_append (argv0 : String) (pre rest : List GetoptCall)
    (vars vars' : MainVars)
    (h : main_getopt_loop argv0 (pre ++ rest) vars = OptLoop.done vars') :
    ∃ mid, main_getopt_loop argv0 pre vars = OptLoop.done mid ∧
      main_getopt_loop argv0 rest mid = OptLoop.done vars' := by
  induction pre generalizing vars with
  | nil => exact ⟨vars, by simp [main_getopt_loop], by simpa using h⟩
  | cons c cs ih =>
    simp only [List.cons_append] at h
    by_cases hh : c.opt = 'h'
    · simp [main_getopt_loop, hh] at h
    by_cases hv : c.opt = 'v'
    · simp only [main_getopt_loop, hh, hv, if_true, if_false] at h ⊢
      exact ih _ h
    by_cases ht : c.opt = 't'
    · simp only [main_getopt_loop, hh, hv, ht, if_true, if_false] at h ⊢
      exact ih _ h
    by_cases hi : c.opt = 'i'
    · simp only [main_getopt_loop, hh, hv, ht, hi, if_true, if_false] at h ⊢
      exact ih _ h
    by_cases hq : c.opt = '?'
    · simp [main_getopt_loop, hh, hv, ht, hi, hq] at h
    · simp [main_getopt_loop, hh, hv, ht, hi, hq] at h

/-- The option loop leaves in `ifname` the argument of the last `'i'` call and in
`msgtypestr` the argument of the last `'t'` call. -/
theorem main_getopt_loop_last (argv0 : String) (calls : List GetoptCall)
    (vars vars' : MainVars) (h : main_getopt_loop argv0 calls vars = OptLoop.done vars') :
    (∀ pre oa post, calls = pre ++ { opt := 'i', optarg := oa } :: post →
      (∀ c ∈ post, c.opt ≠ 'i') → vars'.ifname = oa) ∧
    (∀ pre oa post, calls = pre ++ { opt := 't', optarg := oa } :: post →
      (∀ c ∈ post, c.opt ≠ 't') → vars'.msgtypestr = oa) := by
  constructor
  · intro pre oa post hsplit hpost
    subst hsplit
    obtain ⟨mid, -, h2⟩ := main_getopt_loop_append argv0 pre _ vars vars' h
    simp only [main_getopt_loop, show ('i' : Char) ≠ 'h' by decide,
      show ('i' : Char) ≠ 'v' by decide, show ('i' : Char) ≠ 't' by decide,
      if_true, if_false] at h2
    exact ((main_getopt_loop_keeps argv0 post _ vars' h2).2 hpost)
  · intro pre oa post hsplit hpost
    subst hsplit
    obtain ⟨mid, -, h2⟩ := main_getopt_loop_append argv0 pre _ vars vars' h
    simp only [main_getopt_loop, show ('t' : Char) ≠ 'h' by decide,
      show ('t' : Char) ≠ 'v' by decide, if_true, if_false] at h2
    exact ((main_getopt_loop_keeps argv0 post _ vars' h2).1 hpost)

/-- In the option string of `main`, `h` is the only short option without an
argument. -/
theorem getopt_lookup_main (c : Char) :
    (getopt_lookup "hp:i:t:".data c = some false → c = 'h') ∧
    (getopt_lookup "hp:i:t:".data c = some true → c = 'p' ∨ c = 'i' ∨ c = 't') := by
  have hd : "hp:i:t:".data = ['h', 'p', ':', 'i', ':', 't', ':'] := rfl
  rw [hd]
  by_cases h1 : 'h' = c
  · subst h1; simp [getopt_lookup]
  by_cases h2 : 'p' = c
  · subst h2; simp [getopt_lookup]
  by_cases h3 : 'i' = c
  · subst h3; simp [getopt_lookup]
  by_cases h4 : 't' = c
  · subst h4; simp [getopt_lookup]
  by_cases h5 : ':' = c
  · subst h5; simp [getopt_lookup]
  simp [getopt_lookup, h1, h2, h3, h4, h5]

/-- A short option `i` or `t` found inside an element carries its argument. -/
theorem getopt_short_optarg (cs : List Char) (c : GetoptCall)
    (hc : c ∈ (getopt_short "hp:i:t:".data cs).1) (ho : c.opt = 'i' ∨ c.opt = 't') :
    ∃ s, c.optarg = some s := by
  induction cs with
  | nil => simp [getopt_short] at hc
  | cons x xs ih =>
    unfold getopt_short at hc
    cases hl : getopt_lookup "hp:i:t:".data x with
    | none =>
      simp only [hl, List.mem_cons] at hc
      rcases hc with rfl | hc
      · rcases ho with ho | ho <;> simp at ho
      · exact ih hc
    | some b =>
      cases b with
      | false =>
        have hx := (getopt_lookup_main x).1 hl
        simp only [hl, List.mem_cons] at hc
        rcases hc with rfl | hc
        · subst hx
          rcases ho with ho | ho <;> simp at ho
        · exact ih hc
      | true =>
        simp only [hl] at hc
        by_cases hxs : xs = []
        · simp [hxs] at hc
        · simp only [hxs, if_false, List.mem_singleton] at hc
          subst hc
          exact ⟨_, rfl⟩

/-- The long option a name designates is an entry of the table. -/
theorem getopt_find_long_mem (longopts : List LongOption) (name : List Char)
    (o : LongOption) (h : getopt_find_long longopts name = some o) : o ∈ longopts := by
  unfold getopt_find_long at h
  cases hf : longopts.find? (fun o => decide (o.name.data = name)) with
  | some o' =>
    simp only [hf, Option.some.injEq] at h
    subst h
    exact List.mem_of_find?_eq_some hf
  | none =>
    simp only [hf] at h
    cases hfl : longopts.filter (fun o => name.isPrefixOf o.name.data) with
    | nil => simp [hfl] at h
    | cons a l =>
      cases l with
      | nil =>
        simp only [hfl, Option.some.injEq] at h
        subst h
        have : a ∈ longopts.filter (fun o => name.isPrefixOf o.name.data) := by
          rw [hfl]; simp
        exact (List.mem_filter.1 this).1
      | cons b l' => simp [hfl] at h

/-- A long option `--ifname` or `--msg_type` completed inside an element carries
its argument. -/
theorem getopt_long_element_optarg (body : List Char) (c : GetoptCall)
    (hc : c ∈ (getopt_long_element long_options body).1) (ho : c.opt = 'i' ∨ c.opt = 't') :
    ∃ s, c.optarg = some s := by
  unfold getopt_long_element at hc
  simp only [] at hc
  cases hf : getopt_find_long long_options (body.takeWhile (fun c => c ≠ '=')) with
  | none =>
    simp only [hf, List.mem_singleton] at hc
    subst hc
    rcases ho with ho | ho <;> simp at ho
  | some o =>
    have hmem := getopt_find_long_mem _ _ _ hf
    cases hv : (body.dropWhile (fun c => c ≠ '=')).tail? with
    | some v =>
      simp only [hf, hv] at hc
      by_cases hn : o.has_arg = no_argument
      · simp only [hn, if_true, List.mem_singleton] at hc
        subst hc
        rcases ho with ho | ho <;> simp at ho
      · simp only [hn, if_false, List.mem_singleton] at hc
        subst hc
        exact ⟨_, rfl⟩
    | none =>
      simp only [hf, hv] at hc
      by_cases hr : o.has_arg = required_argument
      · simp [hr] at hc
      · simp only [hr, if_false, List.mem_singleton] at hc
        subst hc
        simp only [long_options, List.mem_cons, List.mem_singleton, List.not_mem_nil,
          or_false] at hmem
        rcases hmem with rfl | rfl | rfl | rfl
        · rcases ho with ho | ho <;> simp at ho
        · rcases ho with ho | ho <;> simp at ho
        · exact absurd rfl hr
        · exact absurd rfl hr

/-- Every `'i'` or `'t'` that `getopt_long` returns to `main` comes with an
argument in `optarg`. -/
theorem getopt_long_scan_optarg (args : List String) (pending : Option Char)
    (c : GetoptCall)
    (hc : c ∈ (getopt_long_scan "hp:i:t:".data long_options pending args).1)
    (ho : c.opt = 'i' ∨ c.opt = 't') : ∃ s, c.optarg = some s := by
  induction args generalizing pending with
  | nil =>
    cases pending with
    | none => simp [getopt_long_scan] at hc
    | some p =>
      simp only [getopt_long_scan, List.mem_singleton] at hc
      subst hc
      rcases ho with ho | ho <;> simp at ho
  | cons a rest ih =>
    cases pending with
    | some p =>
      simp only [getopt_long_scan, List.mem_cons] at hc
      rcases hc with rfl | hc
      · exact ⟨a, rfl⟩
      · exact ih none hc
    | none =>
      unfold getopt_long_scan at hc
      split at hc
      · simp at hc
      · simp only [List.mem_append] at hc
        rcases hc with hc | hc
        · exact getopt_long_element_optarg _ c hc ho
        · exact ih _ hc
      · simp only [List.mem_append] at hc
        rcases hc with hc | hc
        · exact getopt_short_optarg _ c hc ho
        · exact ih _ hc
      · exact ih none hc

/-- How the interface and message type options of a command line reach `main`:
`-i NAME`, `--ifname NAME` and `--ifname=NAME` make `getopt_long` return `'i'`
with `optarg = NAME`; `-t TYPE`, `--msg_type TYPE` and `--msg_type=TYPE` make it
return `'t'` with `optarg = TYPE`; the scan then goes on with the rest. -/
theorem getopt_long_scan_options (s : String) (rest : List String) :
    getopt_long_scan "hp:i:t:".data long_options none ("-i" :: s :: rest) =
      ({ opt := 'i', optarg := some s } ::
        (getopt_long_scan "hp:i:t:".data long_options none rest).1,
        (getopt_long_scan "hp:i:t:".data long_options none rest).2) ∧
    getopt_long_scan "hp:i:t:".data long_options none ("--ifname" :: s :: rest) =
      ({ opt := 'i', optarg := some s } ::
        (getopt_long_scan "hp:i:t:".data long_options none rest).1,
        (getopt_long_scan "hp:i:t:".data long_options none rest).2) ∧
    getopt_long_scan "hp:i:t:".data long_options none (("--ifname=" ++ s) :: rest) =
      ({ opt := 'i', optarg := some s } ::
        (getopt_long_scan "hp:i:t:".data long_options none rest).1,
        (getopt_long_scan "hp:i:t:".data long_options none rest).2) ∧
    getopt_long_scan "hp:i:t:".data long_options none ("-t" :: s :: rest) =
      ({ opt := 't', optarg := some s } ::
        (getopt_long_scan "hp:i:t:".data long_options none rest).1,
        (getopt_long_scan "hp:i:t:".data long_options none rest).2) ∧
    getopt_long_scan "hp:i:t:".data long_options none ("--msg_type" :: s :: rest) =
      ({ opt := 't', optarg := some s } ::
        (getopt_long_scan "hp:i:t:".data long_options none rest).1,
        (getopt_long_scan "hp:i:t:".data long_options none rest).2) ∧
    getopt_long_scan "hp:i:t:".data long_options none (("--msg_type=" ++ s) :: rest) =
      ({ opt := 't', optarg := some s } ::
        (getopt_long_scan "hp:i:t:".data long_options none rest).1,
        (getopt_long_scan "hp:i:t:".data long_options none rest).2) := by
  cases s with
  | mk d => exact ⟨rfl, rfl, rfl, rfl, rfl, rfl⟩

/-- The registration of the monitor command in terms of the variables `vars` the
option loop has left: one registration, right after `ndp_open`, of
`msgrcv_handler_func` with the type `get_msg_type` gives for `vars.msgtypestr`,
with ifindex 0 when `vars.ifname` is NULL and the index of `vars.ifname`
otherwise, and with a NULL private pointer. -/
theorem main_monitor_registration_vars (w : World) (argv : List String) (vars : MainVars)
    (cmd_name : String) (operands : List String)
    (hopts : main_getopt_loop (argv.headD "") (getopt_long argv "hp:i:t:" long_options).1
      { g_verbosity := DEFAULT_VERB, msgtypestr := none, ifname := none } =
        OptLoop.done vars)
    (hcmd : (getopt_long argv "hp:i:t:" long_options).2 = cmd_name :: operands)
    (hif : ∀ name, vars.ifname = some name → w.if_nametoindex name ≠ 0)
    (htype : (get_msg_type w.uninit_msg_type vars.msgtypestr).1 = 0)
    (hopen : w.ndp_open_ret = 0)
    (hmon : strncmp cmd_name.data "monitor".data (strlen cmd_name.data) = 0) :
    ∃ (msg_type : Nat) (t_rest : List Event),
      get_msg_type w.uninit_msg_type vars.msgtypestr = (0, msg_type) ∧
      (∀ func mt idx priv, Event.ndp_msgrcv_handler_register func mt idx priv ∉ t_rest) ∧
      (vars.ifname = none →
        (main w argv).trace =
          [Event.ndp_open,
            Event.ndp_msgrcv_handler_register "msgrcv_handler_func" msg_type 0 none] ++
          t_rest) ∧
      (∀ name, vars.ifname = some name →
        w.if_nametoindex name ≠ 0 ∧
        (main w argv).trace =
          [Event.if_nametoindex name, Event.ndp_open,
            Event.ndp_msgrcv_handler_register "msgrcv_handler_func" msg_type
              (w.if_nametoindex name) none] ++
          t_rest) ∧
      (vars.msgtypestr = none → msg_type = NDP_MSG_ALL) ∧
      ((∀ c ∈ (getopt_long argv "hp:i:t:" long_options).1, c.opt ≠ 't' ∧ c.opt ≠ 'i') →
        (main w argv).trace =
          [Event.ndp_open,
            Event.ndp_msgrcv_handler_register "msgrcv_handler_func" NDP_MSG_ALL 0 none] ++
          t_rest) := by
  have hkeep := main_getopt_loop_keeps _ _ _ _ hopts
  cases hifn : vars.ifname with
  | none =>
    obtain ⟨t, ht, hnot⟩ := run_cmd_monitor_register w
      (get_msg_type w.uninit_msg_type vars.msgtypestr).2 0
    have hnot' : ∀ func mt idx priv,
        Event.ndp_msgrcv_handler_register func mt idx priv ∉ t := hnot
    have htrace : ∃ tail, (∀ func mt idx priv,
          Event.ndp_msgrcv_handler_register func mt idx priv ∉ tail) ∧
        (main w argv).trace = [Event.ndp_open,
          Event.ndp_msgrcv_handler_register "msgrcv_handler_func"
            (get_msg_type w.uninit_msg_type vars.msgtypestr).2 0 none] ++ t ++ tail := by
      cases hm : (run_cmd_monitor w (get_msg_type w.uninit_msg_type vars.msgtypestr).2 0).2 with
      | none =>
        refine ⟨[], by simp, ?_⟩
        simp only [main, hopts, hcmd]; simp [main_command, hifn, htype, hopen, hmon, hm, ht]
      | some e =>
        by_cases he : e = 0
        · refine ⟨[Event.ndp_close], by simp, ?_⟩
          simp only [main, hopts, hcmd]; simp [main_command, hifn, htype, hopen, hmon, hm, ht, he]
        · refine ⟨pr_err [] ("Command failed \"" ++ w.strerror (-e) ++ "\"\n") ++
            [Event.ndp_close], by simp [pr_err], ?_⟩
          simp only [main, hopts, hcmd]; simp [main_command, hifn, htype, hopen, hmon, hm, ht, he]
    obtain ⟨tail, htail, htr⟩ := htrace
    refine ⟨(get_msg_type w.uninit_msg_type vars.msgtypestr).2, t ++ tail, ?_, ?_, ?_, ?_, ?_, ?_⟩
    · exact Prod.ext htype rfl
    · intro f m i p hmem
      rcases List.mem_append.1 hmem with h | h
      · exact hnot' f m i p h
      · exact htail f m i p h
    · intro _; simpa using htr
    · intro name hname; cases hname
    · intro hnone; simp [hnone, get_msg_type]
    · intro hc
      have h1 : vars.msgtypestr = none := hkeep.1 (fun c hcm => (hc c hcm).1)
      rw [htr]; simp [h1, get_msg_type]
  | some name =>
    have hne : w.if_nametoindex name ≠ 0 := hif name hifn
    obtain ⟨t, ht, hnot⟩ := run_cmd_monitor_register w
      (get_msg_type w.uninit_msg_type vars.msgtypestr).2 (w.if_nametoindex name)
    have htrace : ∃ tail, (∀ func mt idx priv,
          Event.ndp_msgrcv_handler_register func mt idx priv ∉ tail) ∧
        (main w argv).trace = [Event.if_nametoindex name, Event.ndp_open,
          Event.ndp_msgrcv_handler_register "msgrcv_handler_func"
            (get_msg_type w.uninit_msg_type vars.msgtypestr).2 (w.if_nametoindex name) none] ++
          t ++ tail := by
      cases hm : (run_cmd_monitor w (get_msg_type w.uninit_msg_type vars.msgtypestr).2
          (w.if_nametoindex name)).2 with
      | none =>
        refine ⟨[], by simp, ?_⟩
        simp only [main, hopts, hcmd]; simp [main_command, hifn, htype, hopen, hmon, hm, ht, hne]
      | some e =>
        by_cases he : e = 0
        · refine ⟨[Event.ndp_close], by simp, ?_⟩
          simp only [main, hopts, hcmd]; simp [main_command, hifn, htype, hopen, hmon, hm, ht, he, hne]
        · refine ⟨pr_err [] ("Command failed \"" ++ w.strerror (-e) ++ "\"\n") ++
            [Event.ndp_close], by simp [pr_err], ?_⟩
          simp only [main, hopts, hcmd]; simp [main_command, hifn, htype, hopen, hmon, hm, ht, he, hne]
    obtain ⟨tail, htail, htr⟩ := htrace
    refine ⟨(get_msg_type w.uninit_msg_type vars.msgtypestr).2, t ++ tail, ?_, ?_, ?_, ?_, ?_, ?_⟩
    · exact Prod.ext htype rfl
    · intro f m i p hmem
      rcases List.mem_append.1 hmem with h | h
      · exact hnot f m i p h
      · exact htail f m i p h
    · intro h; cases h
    · intro n hn
      cases hn
      exact ⟨hne, by simpa using htr⟩
    · intro hnone; simp [hnone, get_msg_type]
    · intro hc
      have h2 : vars.ifname = none := hkeep.2 (fun c hcm => (hc c hcm).2)
      rw [hifn] at h2; cases h2

/-- Claim C3: when `main` reaches the monitor command (the option loop has ended,
there is a command word, the named interface exists, the message type is
valid, `ndp_open` has succeeded and the word selects "monitor"), exactly one
handler registration takes place, right after `ndp_open`: it registers
`msgrcv_handler_func` with private pointer NULL and with the message type
`get_msg_type` produced. In terms of the command line, that is of the options
`getopt_long` returns for it: when the last interface option (`-i`,
`--ifname`) has argument `name`, `if_nametoindex(name)` is called, is not zero
and is the registered ifindex; when there is no interface option the
registered ifindex is 0; when the last message type option (`-t`,
`--msg_type`) has argument `s`, the registered type is the one `get_msg_type`
stores for `s`; when there is no message type option it is `NDP_MSG_ALL`; with
neither kind of option the registration is
`(msgrcv_handler_func, NDP_MSG_ALL, 0, NULL)`. Every such option comes with an
argument, and each of the spellings `-i NAME`, `--ifname NAME`,
`--ifname=NAME`, `-t TYPE`, `--msg_type TYPE`, `--msg_type=TYPE` is returned
by `getopt_long` as that option with that argument. -/
theorem main_monitor_registration (w : World) (argv : List String) (vars : MainVars)
    (cmd_name : String) (operands : List String)
    (hopts : main_getopt_loop (argv.headD "") (getopt_long argv "hp:i:t:" long_options).1
      { g_verbosity := DEFAULT_VERB, msgtypestr := none, ifname := none } =
        OptLoop.done vars)
    (hcmd : (getopt_long argv "hp:i:t:" long_options).2 = cmd_name :: operands)
    (hif : ∀ name, vars.ifname = some name → w.if_nametoindex name ≠ 0)
    (htype : (get_msg_type w.uninit_msg_type vars.msgtypestr).1 = 0)
    (hopen : w.ndp_open_ret = 0)
    (hmon : strncmp cmd_name.data "monitor".data (strlen cmd_name.data) = 0) :
    ∃ (msg_type : Nat) (t_rest : List Event),
      get_msg_type w.uninit_msg_type vars.msgtypestr = (0, msg_type) ∧
      (∀ func mt idx priv, Event.ndp_msgrcv_handler_register func mt idx priv ∉ t_rest) ∧
      (vars.ifname = none →
        (main w argv).trace =
          [Event.ndp_open,
            Event.ndp_msgrcv_handler_register "msgrcv_handler_func" msg_type 0 none] ++
          t_rest) ∧
      (∀ name, vars.ifname = some name →
        w.if_nametoindex name ≠ 0 ∧
        (main w argv).trace =
          [Event.if_nametoindex name, Event.ndp_open,
            Event.ndp_msgrcv_handler_register "msgrcv_handler_func" msg_type
              (w.if_nametoindex name) none] ++
          t_rest) ∧
      (vars.msgtypestr = none → msg_type = NDP_MSG_ALL) ∧
      ((∀ c ∈ (getopt_long argv "hp:i:t:" long_options).1, c.opt ≠ 't' ∧ c.opt ≠ 'i') →
        (main w argv).trace =
          [Event.ndp_open,
            Event.ndp_msgrcv_handler_register "msgrcv_handler_func" NDP_MSG_ALL 0 none] ++
          t_rest) ∧
      (∀ (pre : List GetoptCall) (name : String) (post : List GetoptCall),
        (getopt_long argv "hp:i:t:" long_options).1 =
          pre ++ { opt := 'i', optarg := some name } :: post →
        (∀ c ∈ post, c.opt ≠ 'i') →
        w.if_nametoindex name ≠ 0 ∧
        (main w argv).trace =
          [Event.if_nametoindex name, Event.ndp_open,
            Event.ndp_msgrcv_handler_register "msgrcv_handler_func" msg_type
              (w.if_nametoindex name) none] ++
          t_rest) ∧
      ((∀ c ∈ (getopt_long argv "hp:i:t:" long_options).1, c.opt ≠ 'i') →
        (main w argv).trace =
          [Event.ndp_open,
            Event.ndp_msgrcv_handler_register "msgrcv_handler_func" msg_type 0 none] ++
          t_rest) ∧
      (∀ (pre : List GetoptCall) (s : String) (post : List GetoptCall),
        (getopt_long argv "hp:i:t:" long_options).1 =
          pre ++ { opt := 't', optarg := some s } :: post →
        (∀ c ∈ post, c.opt ≠ 't') →
        get_msg_type w.uninit_msg_type (some s) = (0, msg_type)) ∧
      ((∀ c ∈ (getopt_long argv "hp:i:t:" long_options).1, c.opt ≠ 't') →
        msg_type = NDP_MSG_ALL) ∧
      (∀ c ∈ (getopt_long argv "hp:i:t:" long_options).1, c.opt = 'i' ∨ c.opt = 't' →
        ∃ s, c.optarg = some s) ∧
      (∀ (s : String) (rest : List String),
        (∀ spelled ∈ [["-i", s], ["--ifname", s], ["--ifname=" ++ s]],
          getopt_long_scan "hp:i:t:".data long_options none (spelled ++ rest) =
            ({ opt := 'i', optarg := some s } ::
              (getopt_long_scan "hp:i:t:".data long_options none rest).1,
              (getopt_long_scan "hp:i:t:".data long_options none rest).2)) ∧
        (∀ spelled ∈ [["-t", s], ["--msg_type", s], ["--msg_type=" ++ s]],
          getopt_long_scan "hp:i:t:".data long_options none (spelled ++ rest) =
            ({ opt := 't', optarg := some s } ::
              (getopt_long_scan "hp:i:t:".data long_options none rest).1,
              (getopt_long_scan "hp:i:t:".data long_options none rest).2))) := by
  obtain ⟨msg_type, t_rest, h1, h2, h3, h4, h5, h6⟩ :=
    main_monitor_registration_vars w argv vars cmd_name operands hopts hcmd hif htype hopen
      hmon
  have hkeep := main_getopt_loop_keeps _ _ _ _ hopts
  have hlast := main_getopt_loop_last _ _ _ _ hopts
  refine ⟨msg_type, t_rest, h1, h2, h3, h4, h5, h6, ?_, ?_, ?_, ?_, ?_, ?_⟩
  · intro pre name post hsplit hpost
    exact h4 name (hlast.1 pre (some name) post hsplit hpost)
  · intro hno
    exact h3 (hkeep.2 hno)
  · intro pre s post hsplit hpost
    have hs : vars.msgtypestr = some s := hlast.2 pre (some s) post hsplit hpost
    rw [← hs]
    exact h1
  · intro hno
    exact h5 (hkeep.1 hno)
  · intro c hc ho
    exact getopt_long_scan_optarg argv.tail none c hc ho
  · intro s rest
    obtain ⟨e1, e2, e3, e4, e5, e6⟩ := getopt_long_scan_options s rest
    constructor
    · intro spelled hsp
      simp only [List.mem_cons, List.mem_singleton, List.not_mem_nil, or_false] at hsp
      rcases hsp with rfl | rfl | rfl
      · exact e1
      · exact e2
      · exact e3
    · intro spelled hsp
      simp only [List.mem_cons, List.mem_singleton, List.not_mem_nil, or_false] at hsp
      rcases hsp with rfl | rfl | rfl
      · exact e4
      · exact e5
      · exact e6

/-- Witness of C3: in a world where `eth0` has index 2, both `ndptool -t ra -i eth0
mon` and `ndptool --msg_type=ra --ifname eth0 mon` register
`(msgrcv_handler_func, NDP_MSG_RA, 2, NULL)`. -/
theorem main_monitor_registration_witness :
    (∃ t_rest, (main world_eth0 ["ndptool", "-t", "ra", "-i", "eth0", "mon"]).trace =
      [Event.if_nametoindex "eth0", Event.ndp_open,
        Event.ndp_msgrcv_handler_register "msgrcv_handler_func" NDP_MSG_RA 2 none] ++
        t_rest) ∧
    (∃ t_rest,
      (main world_eth0 ["ndptool", "--msg_type=ra", "--ifname", "eth0", "mon"]).trace =
      [Event.if_nametoindex "eth0", Event.ndp_open,
        Event.ndp_msgrcv_handler_register "msgrcv_handler_func" NDP_MSG_RA 2 none] ++
        t_rest) := by
  constructor
  · obtain ⟨mt, t_rest, hmt, -, -, hsome, -⟩ :=
      main_monitor_registration world_eth0 ["ndptool", "-t", "ra", "-i", "eth0", "mon"]
        { g_verbosity := DEFAULT_VERB, msgtypestr := some "ra", ifname := some "eth0" }
        "mon" [] (by decide) (by decide) (by intro name h; cases h; decide) (by decide) rfl
        (by decide)
    have hmt2 : mt = NDP_MSG_RA := (congrArg Prod.snd hmt).symm
    subst hmt2
    exact ⟨t_rest, (hsome "eth0" rfl).2⟩
  · obtain ⟨mt, t_rest, -, -, -, -, -, -, hlast, -, htype, -⟩ :=
      main_monitor_registration world_eth0
        ["ndptool", "--msg_type=ra", "--ifname", "eth0", "mon"]
        { g_verbosity := DEFAULT_VERB, msgtypestr := some "ra", ifname := some "eth0" }
        "mon" [] (by decide) (by decide) (by intro name h; cases h; decide) (by decide) rfl
        (by decide)
    have hmt : (0, NDP_MSG_RA) = ((0 : Int), mt) :=
      htype [] "ra" [{ opt := 'i', optarg := some "eth0" }] (by decide) (by decide)
    have hmt2 : mt = NDP_MSG_RA := (congrArg Prod.snd hmt).symm
    subst hmt2
    exact ⟨t_rest,
      (hlast [{ opt := 't', optarg := some "ra" }] "eth0" [] (by decide) (by simp)).2⟩

/-- Claim C9: once `main` has reached the comparison of the command word (the
option loop has ended, a command word is there, the interface and message type
are valid and `ndp_open` has succeeded), it runs the monitor command, that is
it registers the handler, exactly when the word is a prefix of "monitor":
"monitor", "mon", "m" and the empty word are prefixes, "monitors" and "x" are
not. For a word that is not a prefix it prints `Unknown command`, calls
`ndp_close` and exits with `EXIT_FAILURE`. -/
theorem main_command_word (w : World) (argv : List String) (vars : MainVars)
    (cmd_name : String) (operands : List String)
    (hopts : main_getopt_loop (argv.headD "") (getopt_long argv "hp:i:t:" long_options).1
      { g_verbosity := DEFAULT_VERB, msgtypestr := none, ifname := none } =
        OptLoop.done vars)
    (hcmd : (getopt_long argv "hp:i:t:" long_options).2 = cmd_name :: operands)
    (hstr : IsCString cmd_name)
    (hif : ∀ name, vars.ifname = some name → w.if_nametoindex name ≠ 0)
    (htype : (get_msg_type w.uninit_msg_type vars.msgtypestr).1 = 0)
    (hopen : w.ndp_open_ret = 0) :
    ((∃ func mt idx priv,
        Event.ndp_msgrcv_handler_register func mt idx priv ∈ (main w argv).trace) ↔
      cmd_name.data <+: "monitor".data) ∧
    (cmd_name.data <+: "monitor".data →
      ∃ tail, (main w argv).trace =
        vars.ifname.toList.map Event.if_nametoindex ++ [Event.ndp_open] ++
          (run_cmd_monitor w (get_msg_type w.uninit_msg_type vars.msgtypestr).2
            ((vars.ifname.map w.if_nametoindex).getD 0)).1 ++ tail) ∧
    (¬ cmd_name.data <+: "monitor".data →
      (main w argv).trace =
        vars.ifname.toList.map Event.if_nametoindex ++
          [Event.ndp_open, Event.stderr ("Unknown command \"" ++ cmd_name ++ "\"\n"),
            Event.ndp_close] ∧
      (main w argv).status = some EXIT_FAILURE) ∧
    ("monitor".data <+: "monitor".data ∧ "mon".data <+: "monitor".data ∧
      "m".data <+: "monitor".data ∧ "".data <+: "monitor".data ∧
      ¬ "monitors".data <+: "monitor".data ∧ ¬ "x".data <+: "monitor".data) := by
  have hpre := strncmp_strlen_eq_zero_iff cmd_name.data "monitor".data hstr
  have hmain : main w argv = main_command w (argv.headD "") vars (cmd_name :: operands) := by
    simp only [main, hopts, hcmd]
  have hifz : ¬ (vars.ifname.isSome = true ∧
      (match vars.ifname with
        | none => 0
        | some ifname => w.if_nametoindex ifname) = 0) := by
    cases hifn : vars.ifname with
    | none => simp
    | some name => simpa using hif name hifn
  have hrun : cmd_name.data <+: "monitor".data →
      ∃ tail, (main w argv).trace =
        vars.ifname.toList.map Event.if_nametoindex ++ [Event.ndp_open] ++
          (run_cmd_monitor w (get_msg_type w.uninit_msg_type vars.msgtypestr).2
            ((vars.ifname.map w.if_nametoindex).getD 0)).1 ++ tail := by
    intro hp
    have hmon := hpre.2 hp
    rw [hmain]
    cases hifn : vars.ifname with
    | none =>
      cases hm : (run_cmd_monitor w (get_msg_type w.uninit_msg_type vars.msgtypestr).2 0).2 with
      | none =>
        exact ⟨[], by simp [main_command, hifn, htype, hopen, hmon, hm]⟩
      | some e =>
        by_cases he : e = 0
        · exact ⟨[Event.ndp_close], by simp [main_command, hifn, htype, hopen, hmon, hm, he]⟩
        · exact ⟨pr_err [] ("Command failed \"" ++ w.strerror (-e) ++ "\"\n") ++
            [Event.ndp_close], by simp [main_command, hifn, htype, hopen, hmon, hm, he]⟩
    | some name =>
      have hne := hif name hifn
      cases hm : (run_cmd_monitor w (get_msg_type w.uninit_msg_type vars.msgtypestr).2
          (w.if_nametoindex name)).2 with
      | none =>
        exact ⟨[], by simp [main_command, hifn, htype, hopen, hmon, hm, hne]⟩
      | some e =>
        by_cases he : e = 0
        · exact ⟨[Event.ndp_close],
            by simp [main_command, hifn, htype, hopen, hmon, hm, he, hne]⟩
        · exact ⟨pr_err [] ("Command failed \"" ++ w.strerror (-e) ++ "\"\n") ++
            [Event.ndp_close], by simp [main_command, hifn, htype, hopen, hmon, hm, he, hne]⟩
  have hunk : ¬ cmd_name.data <+: "monitor".data →
      (main w argv).trace =
        vars.ifname.toList.map Event.if_nametoindex ++
          [Event.ndp_open, Event.stderr ("Unknown command \"" ++ cmd_name ++ "\"\n"),
            Event.ndp_close] ∧
      (main w argv).status = some EXIT_FAILURE := by
    intro hp
    have hmon : ¬ strncmp cmd_name.data "monitor".data (strlen cmd_name.data) = 0 :=
      fun h => hp (hpre.1 h)
    rw [hmain]
    cases hifn : vars.ifname with
    | none => simp [main_command, hifn, htype, hopen, hmon, pr_err]
    | some name =>
      have hne := hif name hifn
      simp [main_command, hifn, htype, hopen, hmon, pr_err, hne]
  refine ⟨⟨?_, ?_⟩, hrun, hunk, by decide⟩
  · rintro ⟨f, m, i, p, hmem⟩
    by_contra hp
    rw [(hunk hp).1] at hmem
    cases hifn : vars.ifname with
    | none => simp [hifn] at hmem
    | some name => simp [hifn] at hmem
  · intro hp
    obtain ⟨tail, ht⟩ := hrun hp
    obtain ⟨t, hreg, -⟩ := run_cmd_monitor_register w
      (get_msg_type w.uninit_msg_type vars.msgtypestr).2
      ((vars.ifname.map w.if_nametoindex).getD 0)
    refine ⟨"msgrcv_handler_func", (get_msg_type w.uninit_msg_type vars.msgtypestr).2,
      (vars.ifname.map w.if_nametoindex).getD 0, none, ?_⟩
    rw [ht, hreg]
    simp

/-- Witness of C9: `ndptool mon` registers the monitor handler, `ndptool monitors`
exits with `EXIT_FAILURE`. -/
theorem main_command_word_witness :
    (∃ func mt idx priv, Event.ndp_msgrcv_handler_register func mt idx priv ∈
        (main world_eth0 ["ndptool", "mon"]).trace) ∧
      (main world_eth0 ["ndptool", "monitors"]).status = some EXIT_FAILURE :=
  ⟨(main_command_word world_eth0 ["ndptool", "mon"]
      { g_verbosity := DEFAULT_VERB, msgtypestr := none, ifname := none } "mon" []
      (by decide) (by decide) (by decide) (by intro name h; cases h) (by decide) rfl).1.2
      (by decide),
    ((main_command_word world_eth0 ["ndptool", "monitors"]
      { g_verbosity := DEFAULT_VERB, msgtypestr := none, ifname := none } "monitors" []
      (by decide) (by decide) (by decide) (by intro name h; cases h) (by decide) rfl).2.2.1
      (by decide)).2⟩

/-- Claim C6, evaluated on the code: the option string `"hp:i:t:"` has no `v`, so
for `ndptool -v monitor` the first call of `getopt_long` returns `'?'`; `main`
prints `unknown option.` and the help, and returns `EXIT_FAILURE` with
`g_verbosity` unchanged. The same holds for every command line whose first
argument is `-v`. The long option is accepted: two `--verbose` raise
`g_verbosity` by two. -/
theorem main_short_option_v_rejected :
    (getopt_long ["ndptool", "-v", "monitor"] "hp:i:t:" long_options).1 =
        [{ opt := '?', optarg := none }] ∧
      (∀ w : World,
        (main w ["ndptool", "-v", "monitor"]).trace =
            [Event.stderr "unknown option.\n"] ++ print_help DEFAULT_VERB "ndptool" ∧
          (main w ["ndptool", "-v", "monitor"]).status = some EXIT_FAILURE ∧
          (main w ["ndptool", "-v", "monitor"]).g_verbosity = DEFAULT_VERB) ∧
      (∀ (w : World) (argv0 : String) (rest : List String),
        (main w (argv0 :: "-v" :: rest)).status = some EXIT_FAILURE ∧
          (main w (argv0 :: "-v" :: rest)).g_verbosity = DEFAULT_VERB) ∧
      (∀ w : World,
        (main w ["ndptool", "--verbose", "--verbose", "monitor"]).g_verbosity =
          DEFAULT_VERB + 2) := by
  refine ⟨by decide, ?_, ?_, ?_⟩
  · intro w
    exact ⟨rfl, rfl, rfl⟩
  · intro w argv0 rest
    exact ⟨rfl, rfl⟩
  · intro w
    have h : main w ["ndptool", "--verbose", "--verbose", "monitor"] =
        main_command w "ndptool"
          { g_verbosity := DEFAULT_VERB + 2, msgtypestr := none, ifname := none }
          ["monitor"] := rfl
    rw [h, main_command_g_verbosity]

/-! ## `msgrcv_handler_func` -/

/-- A decimal number followed by `s` is never the text `infinity`. -/
theorem fmt_u_s_ne_infinity (n : Nat) : fmt_u n ++ "s" ≠ "infinity" := by
  intro h
  have hd := congrArg String.data h
  have hl := congrArg List.getLast? hd
  simp [String.data_append] at hl

/-- Claim C5: for a Router Advertisement whose prefix option is present (and
`g_verbosity` at least `DEFAULT_VERB`, as it always is), the handler prints the
prefix, then `, valid_time: ` followed by `infinity` exactly when
`ndp_msgra_opt_prefix_valid_time` returned 0xFFFFFFFF and by the decimal value
and `s` otherwise, then `, preferred_time: ` followed by the preferred lifetime
rendered by the same rule, independently of the valid lifetime. -/
theorem msgrcv_handler_func_prefix_lifetimes (w : World) (g : Int) (msg : ndp_msg)
    (hg : 0 ≤ g) (hra : msg.msg_type = NDP_MSG_RA)
    (hpresent : msg.ra.opt_prefix_present = true) :
    ∃ (before : List Event) (valid preferred : String),
      (msgrcv_handler_func w g msg).1 =
        before ++
          [Event.stdout ("  Prefix: " ++ str_in6_addr w msg.ra.opt_prefix_addr ++ "/" ++
              fmt_u msg.ra.opt_prefix_len),
            Event.stdout ", valid_time: ", Event.stdout valid,
            Event.stdout ", preferred_time: ", Event.stdout preferred,
            Event.stdout "\n"] ++
          msgrcv_handler_func_ra_mtu g msg.ra ∧
      (valid = "infinity" ↔ msg.ra.opt_prefix_valid_time = 4294967295) ∧
      (msg.ra.opt_prefix_valid_time ≠ 4294967295 →
        valid = fmt_u msg.ra.opt_prefix_valid_time ++ "s") ∧
      (preferred = "infinity" ↔ msg.ra.opt_prefix_preferred_time = 4294967295) ∧
      (msg.ra.opt_prefix_preferred_time ≠ 4294967295 →
        preferred = fmt_u msg.ra.opt_prefix_preferred_time ++ "s") := by
  refine ⟨msgrcv_handler_func_head w g msg ++ msgrcv_handler_func_ra_fixed g msg.ra ++
      msgrcv_handler_func_ra_source g msg.ra ++ msgrcv_handler_func_ra_target g msg.ra ++
      [Event.lib Accessor.ndp_msgra_opt_prefix_present,
        Event.lib Accessor.ndp_msgra_opt_prefix_valid_time,
        Event.lib Accessor.ndp_msgra_opt_prefix_preferred_time,
        Event.lib Accessor.ndp_msgra_opt_prefix,
        Event.lib Accessor.ndp_msgra_opt_prefix_len],
    (if msg.ra.opt_prefix_valid_time = 4294967295 then "infinity"
      else fmt_u msg.ra.opt_prefix_valid_time ++ "s"),
    (if msg.ra.opt_prefix_preferred_time = 4294967295 then "infinity"
      else fmt_u msg.ra.opt_prefix_preferred_time ++ "s"), ?_, ?_, ?_, ?_, ?_⟩
  · have hne : (NDP_MSG_RA = NDP_MSG_RS) = False := by decide
    unfold msgrcv_handler_func
    simp only [hra, hne, if_true, if_false, msgrcv_handler_func_ra_prefix_option, hpresent]
    by_cases hv : msg.ra.opt_prefix_valid_time = 4294967295 <;>
      by_cases hp : msg.ra.opt_prefix_preferred_time = 4294967295 <;>
      simp [hv, hp, pr_out, pr_outx, DEFAULT_VERB, VERB1, hg]
  · by_cases hv : msg.ra.opt_prefix_valid_time = 4294967295
    · simp [hv]
    · simp [hv, fmt_u_s_ne_infinity]
  · intro hv; simp [hv]
  · by_cases hv : msg.ra.opt_prefix_preferred_time = 4294967295
    · simp [hv]
    · simp [hv, fmt_u_s_ne_infinity]
  · intro hv; simp [hv]

/-- Witness of C5: a valid lifetime of 0xFFFFFFFF is printed as `infinity` and a
preferred lifetime of 14400 as `14400s`. -/
theorem msgrcv_handler_func_prefix_lifetimes_witness :
    Event.stdout "infinity" ∈ (msgrcv_handler_func world_eth0 0 msg_ra_infinite_valid).1 ∧
      Event.stdout "14400s" ∈ (msgrcv_handler_func world_eth0 0 msg_ra_infinite_valid).1 := by
  obtain ⟨before, valid, preferred, htrace, hv, -, -, hp⟩ :=
    msgrcv_handler_func_prefix_lifetimes world_eth0 0 msg_ra_infinite_valid (by decide)
      rfl rfl
  have h1 : valid = "infinity" := hv.2 rfl
  have h2 : preferred = "14400s" := (hp (by decide)).trans (by decide)
  rw [htrace, h1, h2]
  simp

/-- The events of one `pr_out`: nothing below the default verbosity, otherwise the
evaluation of the arguments and the printed text. -/
theorem mem_pr_out (g : Int) (args : List Event) (s : String) (e : Event) :
    e ∈ pr_out g args s ↔ 0 ≤ g ∧ (e ∈ args ∨ e = Event.stdout s) := by
  unfold pr_out pr_outx DEFAULT_VERB VERB1
  by_cases h : (0 : Int) ≤ g
  · simp [h]
  · simp [h]

/-- The function `pr_out_hwaddr` calls no accessor. -/
theorem lib_not_mem_pr_out_hwaddr (g : Int) (hwaddr : List Nat) (len : Nat) (a : Accessor) :
    Event.lib a ∉ pr_out_hwaddr g hwaddr len := by
  unfold pr_out_hwaddr
  simp only [List.mem_append, List.mem_flatten, List.mem_map, List.mem_range, mem_pr_out]
  rintro (⟨l, ⟨i, -, rfl⟩, hmem⟩ | h)
  · rcases List.mem_append.1 hmem with h | h
    · by_cases hi : i ≠ 0
      · simp [hi, mem_pr_out] at h
      · simp [hi] at h
    · simp [mem_pr_out] at h
  · simp at h

/-- Guarded traces can be concatenated. -/
theorem guarded_append (msgra : ndp_msgra) (a b : List Event) (ha : Guarded msgra a)
    (hb : Guarded msgra b) : Guarded msgra (a ++ b) := by
  intro before after v p hsplit hv
  rcases List.append_eq_append_iff.1 hsplit with ⟨a', h1, h2⟩ | ⟨c', h1, h2⟩
  · obtain ⟨hm, hp⟩ := hb a' after v p h2 hv
    exact ⟨by rw [h1]; exact List.mem_append_right _ hm, hp⟩
  · cases c' with
    | nil =>
      simp only [List.nil_append] at h2
      obtain ⟨hm, -⟩ := hb [] after v p h2.symm hv
      simp at hm
    | cons x xs =>
      simp only [List.cons_append, List.cons.injEq] at h2
      obtain ⟨rfl, -⟩ := h2
      exact ha before xs v p h1 hv

/-- A trace without calls of option value accessors is guarded. -/
theorem guarded_of_free (msgra : ndp_msgra) (t : List Event)
    (h : ∀ v, Event.lib v ∈ t → v.presence = none) : Guarded msgra t := by
  intro before after v p hsplit hv
  have := h v (by rw [hsplit]; simp)
  rw [this] at hv; cases hv

/-- A call of a presence accessor followed by events whose option value accessors
all belong to it, the option being present, is guarded. -/
theorem guarded_block (msgra : ndp_msgra) (p : Accessor) (t : List Event)
    (hp : p.presence = none)
    (h : ∀ v, Event.lib v ∈ t →
      v.presence = none ∨ (v.presence = some p ∧ msgra.present p = true)) :
    Guarded msgra (Event.lib p :: t) := by
  intro before after v q hsplit hv
  cases before with
  | nil =>
    simp only [List.nil_append, List.cons.injEq, Event.lib.injEq] at hsplit
    obtain ⟨rfl, -⟩ := hsplit
    rw [hp] at hv; cases hv
  | cons x xs =>
    simp only [List.cons_append, List.cons.injEq] at hsplit
    obtain ⟨rfl, ht⟩ := hsplit
    rcases h v (by rw [ht]; simp) with h0 | ⟨h1, h2⟩
    · rw [h0] at hv; cases hv
    · rw [h1] at hv
      cases hv
      exact ⟨by simp, h2⟩

/-- Membership in a conditional list. -/
theorem mem_ite_list {α : Type} (c : Prop) [Decidable c] (a b : List α) (e : α) :
    e ∈ (if c then a else b) ↔ (c ∧ e ∈ a) ∨ (¬ c ∧ e ∈ b) := by
  by_cases h : c <;> simp [h]

/-- The first lines of the handler are guarded. -/
theorem guarded_head (w : World) (g : Int) (msg : ndp_msg) :
    Guarded msg.ra (msgrcv_handler_func_head w g msg) := by
  apply guarded_of_free
  intro v hv
  cases v <;> first | rfl | (exfalso; simp [msgrcv_handler_func_head, mem_pr_out] at hv)

/-- The fixed fields of a Router Advertisement are guarded. -/
theorem guarded_fixed (g : Int) (msgra : ndp_msgra) :
    Guarded msgra (msgrcv_handler_func_ra_fixed g msgra) := by
  apply guarded_of_free
  intro v hv
  cases v <;> first
    | rfl
    | (exfalso; simp [msgrcv_handler_func_ra_fixed, mem_pr_out, mem_ite_list] at hv)

/-- The source link-layer address block is guarded. -/
theorem guarded_source (g : Int) (msgra : ndp_msgra) :
    Guarded msgra (msgrcv_handler_func_ra_source g msgra) := by
  unfold msgrcv_handler_func_ra_source
  refine guarded_block _ _ _ ?_ ?_
  · rfl
  intro v hv
  have hh := lib_not_mem_pr_out_hwaddr g msgra.opt_source_linkaddr
    msgra.opt_source_linkaddr_len v
  cases v <;> first
    | (left; rfl)
    | (right; simp [mem_pr_out, mem_ite_list, hh] at hv;
       exact ⟨rfl, by simpa [ndp_msgra.present] using hv⟩)
    | (exfalso; simp [mem_pr_out, mem_ite_list, hh] at hv)

/-- The target link-layer address block is guarded. -/
theorem guarded_target (g : Int) (msgra : ndp_msgra) :
    Guarded msgra (msgrcv_handler_func_ra_target g msgra) := by
  unfold msgrcv_handler_func_ra_target
  refine guarded_block _ _ _ ?_ ?_
  · rfl
  intro v hv
  have hh := lib_not_mem_pr_out_hwaddr g msgra.opt_target_linkaddr
    msgra.opt_target_linkaddr_len v
  cases v <;> first
    | (left; rfl)
    | (right; simp [mem_pr_out, mem_ite_list, hh] at hv;
       exact ⟨rfl, by simpa [ndp_msgra.present] using hv⟩)
    | (exfalso; simp [mem_pr_out, mem_ite_list, hh] at hv)

/-- The prefix information block is guarded. -/
theorem guarded_prefix_option (w : World) (g : Int) (msgra : ndp_msgra) :
    Guarded msgra (msgrcv_handler_func_ra_prefix_option w g msgra) := by
  unfold msgrcv_handler_func_ra_prefix_option
  refine guarded_block _ _ _ ?_ ?_
  · rfl
  intro v hv
  cases v <;> first
    | (left; rfl)
    | (right; simp [mem_pr_out, mem_ite_list] at hv;
       exact ⟨rfl, by simp [ndp_msgra.present, hv]⟩)
    | (exfalso; simp [mem_pr_out, mem_ite_list] at hv)

/-- The MTU block is guarded. -/
theorem guarded_mtu (g : Int) (msgra : ndp_msgra) :
    Guarded msgra (msgrcv_handler_func_ra_mtu g msgra) := by
  unfold msgrcv_handler_func_ra_mtu
  refine guarded_block _ _ _ ?_ ?_
  · rfl
  intro v hv
  cases v <;> first
    | (left; rfl)
    | (right; simp [mem_pr_out, mem_ite_list] at hv;
       exact ⟨rfl, by simp [ndp_msgra.present, hv]⟩)
    | (exfalso; simp [mem_pr_out, mem_ite_list] at hv)

/-- A line of text is guarded. -/
theorem guarded_type_line (msgra : ndp_msgra) (g : Int) (s : String) :
    Guarded msgra (pr_out g [] s) := by
  apply guarded_of_free
  intro v hv
  simp [mem_pr_out] at hv

/-- Claim C8: `msgrcv_handler_func` returns 0 for every message, whatever its
type; it calls `ndp_msgra` or an `ndp_msgra_*` accessor only when
`ndp_msg_type(msg)` is `NDP_MSG_RA`; and every call of an option value accessor
(link-layer addresses and their lengths, prefix, prefix length, prefix
lifetimes, MTU) comes after a call of the matching presence accessor, which
returned true. -/
theorem msgrcv_handler_func_accessor_discipline (w : World) (g : Int) (msg : ndp_msg) :
    (msgrcv_handler_func w g msg).2 = 0 ∧
    (∀ a : Accessor, a.isRA = true → Event.lib a ∈ (msgrcv_handler_func w g msg).1 →
      msg.msg_type = NDP_MSG_RA) ∧
    (∀ (before after : List Event) (v p : Accessor),
      (msgrcv_handler_func w g msg).1 = before ++ Event.lib v :: after →
      v.presence = some p → Event.lib p ∈ before ∧ msg.ra.present p = true) := by
  have hhead := guarded_head w g msg
  refine ⟨?_, ?_, ?_⟩
  · unfold msgrcv_handler_func
    simp only []
    split_ifs <;> rfl
  · intro a ha hmem
    by_contra hra
    unfold msgrcv_handler_func at hmem
    simp only [hra, if_false] at hmem
    split_ifs at hmem <;>
      cases a <;> first
        | (exact absurd ha (by decide))
        | (simp [msgrcv_handler_func_head, mem_pr_out] at hmem)
  · show Guarded msg.ra (msgrcv_handler_func w g msg).1
    unfold msgrcv_handler_func
    simp only []
    split_ifs
    · exact guarded_append _ _ _ hhead (guarded_type_line _ _ _)
    · exact guarded_append _ _ _ (guarded_append _ _ _ (guarded_append _ _ _
        (guarded_append _ _ _ (guarded_append _ _ _ hhead (guarded_fixed g msg.ra))
          (guarded_source g msg.ra)) (guarded_target g msg.ra))
        (guarded_prefix_option w g msg.ra)) (guarded_mtu g msg.ra)
    · exact guarded_append _ _ _ hhead (guarded_type_line _ _ _)
    · exact guarded_append _ _ _ hhead (guarded_type_line _ _ _)
    · exact guarded_append _ _ _ hhead (guarded_type_line _ _ _)
    · exact hhead

/-- Witness of C8: on a Neighbor Solicitation the handler returns 0 and does not
call `ndp_msgra`. -/
theorem msgrcv_handler_func_accessor_discipline_witness :
    (msgrcv_handler_func world_eth0 0 msg_ns).2 = 0 ∧
      Event.lib Accessor.ndp_msgra ∉ (msgrcv_handler_func world_eth0 0 msg_ns).1 :=
  ⟨(msgrcv_handler_func_accessor_discipline world_eth0 0 msg_ns).1,
    fun h => absurd
      ((msgrcv_handler_func_accessor_discipline world_eth0 0 msg_ns).2.1
        Accessor.ndp_msgra rfl h) (by decide)⟩

end Ndptool
